import Mathlib

/-!
Verification of the pipeline core of the IBMWatsonCapstone repository
(backend/app/watsonx): the schema-validation, cleaning and anomaly-detection
nodes and the pipeline orchestrator.

The tabular dataset is modelled shallowly: a dataframe is an ordered list of
rows plus a column-name list; a row is an association list from column names
to dynamically typed cell values.  Python/pandas scalars are modelled by the
Value type below; floating point numbers are modelled by rationals (ℚ), NaN
and None both by Value.null.  Timestamps are modelled as rational day counts
so that pandas Timedelta.days is integer flooring of the difference.

Conventions carried through the whole file:
* pd.isna(x) holds exactly for Value.null cells and for absent columns;
* comparisons of NaN with numbers are false (NaN cells fail every numeric
  guard, mirroring IEEE comparison semantics used by the source);
* Python round(x, 2) is modelled as decimal round-half-to-even on ℚ;
* Python float(s) is modelled by parseFloatQ (sign, decimal digits, optional
  fractional part and exponent; the rarely used underscore separators and the
  inf/nan spellings are outside the model).
-/

/-- Dynamically typed cell value of the tabular dataset.  Value.null stands
for both NaN and None (pandas treats them alike through pd.isna). -/
inductive Value where
  | null : Value
  | str : String → Value
  | num : ℚ → Value
  | boolean : Bool → Value
  | date : ℚ → Value
deriving DecidableEq, Repr

/-- Check for the null cell (pd.isna on a scalar). -/
def Value.isNull : Value → Bool
  | .null => true
  | _ => false

/-- A row is an ordered association list from column names to cell values. -/
abbrev Row := List (String × Value)

/-- In-memory tabular dataset: ordered column names and ordered rows. -/
structure DataFrame where
  cols : List String
  rows : List Row
deriving DecidableEq, Repr

/-- Cell access, Series.get without a default: none when the column is
absent from the row. -/
def rowCell (r : Row) (c : String) : Option Value := r.lookup c

/-- Model of pd.isna(row.get(c)): true when the column is absent or the
stored value is null. -/
def cellIsNa (r : Row) (c : String) : Bool :=
  match rowCell r c with
  | some v => v.isNull
  | none => true

/-- Model of df.at[idx, c] = v restricted to one row: replace the cell if the
column already exists in the row, otherwise append it at the end (pandas adds
new columns at the end of the frame). -/
def setCell : Row → String → Value → Row
  | [], c, v => [(c, v)]
  | (k, w) :: r, c, v => if k = c then (c, v) :: r else (k, w) :: setCell r c v

/-- Append a column name to the frame-level column list if it is new. -/
def addCol (cols : List String) (c : String) : List String :=
  if c ∈ cols then cols else cols ++ [c]

/-- Replace the element at one position of a list, leaving the rest alone. -/
def modifyAt : List α → Nat → (α → α) → List α
  | [], _, _ => []
  | a :: l, 0, f => f a :: l
  | a :: l, n + 1, f => a :: modifyAt l n f

/-- ASCII lower-case table used to model str.lower / Series.str.lower on the
identifiers this pipeline handles. -/
def lowerPairs : List (Char × Char) :=
  [('A','a'),('B','b'),('C','c'),('D','d'),('E','e'),('F','f'),('G','g'),
   ('H','h'),('I','i'),('J','j'),('K','k'),('L','l'),('M','m'),('N','n'),
   ('O','o'),('P','p'),('Q','q'),('R','r'),('S','s'),('T','t'),('U','u'),
   ('V','v'),('W','w'),('X','x'),('Y','y'),('Z','z')]

/-- Lower-case one character. -/
def lowerChar (c : Char) : Char := (lowerPairs.lookup c).getD c

/-- Upper-case one character (used by line.upper() in the response parsing).
-/
def upperChar (c : Char) : Char := ((lowerPairs.map Prod.swap).lookup c).getD c

/-- Model of str.lower(). -/
def lowerStr (s : String) : String := ⟨s.data.map lowerChar⟩

/-- Model of str.upper(). -/
def upperStr (s : String) : String := ⟨s.data.map upperChar⟩

/-- Whitespace characters removed by str.strip(). -/
def wsChars : List Char := [' ', '\t', '\n', '\r', '\x0b', '\x0c']

/-- Whitespace test for str.strip(). -/
def isWs (c : Char) : Bool := wsChars.contains c

/-- Trim whitespace from both ends of a character list. -/
def trimWs (l : List Char) : List Char :=
  ((l.dropWhile isWs).reverse.dropWhile isWs).reverse

/-- Model of str.strip(). -/
def stripStr (s : String) : String := ⟨trimWs s.data⟩

/-- Round a rational to the nearest integer, ties to even: the rounding mode
of Python's builtin round. -/
def roundHalfEven (q : ℚ) : ℤ :=
  let f := ⌊q⌋
  let r := q - (f : ℚ)
  if r < 1/2 then f
  else if 1/2 < r then f + 1
  else if Even f then f else f + 1

/-- Model of Python round(x, 2). -/
def round2 (q : ℚ) : ℚ := ((roundHalfEven (q * 100) : ℤ) : ℚ) / 100

/-- Decimal digit test. -/
def isDigitC (c : Char) : Bool := '0' ≤ c && c ≤ '9'

/-- Numeric value of a digit string. -/
def digitsVal (l : List Char) : ℕ :=
  l.foldl (fun a c => a * 10 + (c.toNat - 48)) 0

/-- Consume an optional leading sign. -/
def takeSign : List Char → ℤ × List Char
  | '-' :: l => (-1, l)
  | '+' :: l => (1, l)
  | l => (1, l)

/-- Split a character list at the first exponent marker e or E. -/
def splitExp : List Char → List Char × Option (List Char)
  | [] => ([], none)
  | c :: l =>
    if c = 'e' ∨ c = 'E' then ([], some l)
    else
      let p := splitExp l
      (c :: p.1, p.2)

/-- Parse an unsigned decimal mantissa: digits, optionally a dot and more
digits, with at least one digit overall. -/
def parseMantissa (l : List Char) : Option ℚ :=
  let ip := l.takeWhile isDigitC
  let rest := l.dropWhile isDigitC
  match rest with
  | [] => if ip.isEmpty then none else some ((digitsVal ip : ℕ) : ℚ)
  | '.' :: fp =>
    if fp.all isDigitC && (!ip.isEmpty || !fp.isEmpty) then
      some (((digitsVal ip : ℕ) : ℚ) + ((digitsVal fp : ℕ) : ℚ) / (10 : ℚ) ^ fp.length)
    else none
  | _ => none

/-- Parse a signed decimal exponent. -/
def parseExpVal (l : List Char) : Option ℤ :=
  let p := takeSign l
  if p.2.isEmpty || !(p.2.all isDigitC) then none
  else some (p.1 * ((digitsVal p.2 : ℕ) : ℤ))

/-- Model of Python float(s) on finite decimal notations: optional
whitespace, optional sign, decimal mantissa, optional exponent.  Returns none
exactly when float(s) raises ValueError (underscore digit separators and the
textual inf/nan forms are outside the model). -/
def parseFloatQ (s : String) : Option ℚ :=
  let l := trimWs s.data
  if l.isEmpty then none
  else
    let p := takeSign l
    let me := splitExp p.2
    match parseMantissa me.1 with
    | none => none
    | some m =>
      match me.2 with
      | none => some ((p.1 : ℚ) * m)
      | some el =>
        match parseExpVal el with
        | none => none
        | some e => some ((p.1 : ℚ) * m * (10 : ℚ) ^ (e : ℤ))

example : parseFloatQ "-1200.50" = some (-1200.5) := by
  simp +decide [parseFloatQ, parseMantissa, parseExpVal, splitExp, takeSign,
    digitsVal, trimWs]
  norm_num

example : parseFloatQ "abc" = none := by
  simp +decide [parseFloatQ, parseMantissa, parseExpVal, splitExp, takeSign,
    digitsVal, trimWs]

example : round2 (1/3 * 100) = 33.33 := by
  norm_num [round2, roundHalfEven]

/-! Ingestion node (nodes/ingestion_node.py).  Only the part the claims are
about is embedded: the deterministic column standardization applied after a
source is materialized.  The source-specific I/O (CSV encodings, SQL, HTTP)
is an external collaborator and is not modelled. -/

/-- Character step of the column standardization: str.lower() followed by
replacing spaces and hyphens with underscores, applied character by
character. -/
def colChar (c : Char) : Char :=
  let d := lowerChar c
  if d = ' ' ∨ d = '-' then '_' else d

/-- Lower-case a column name and replace spaces and hyphens with
underscores. -/
def colTransform (s : String) : String := ⟨s.data.map colChar⟩

/-- Synonym table of IngestionNode._standardize_columns. -/
def columnMappings : List (String × String) :=
  [("txn_id", "transaction_id"),
   ("trans_id", "transaction_id"),
   ("id", "transaction_id"),
   ("cust_id", "customer_id"),
   ("customer", "customer_id"),
   ("amt", "amount"),
   ("txn_amount", "amount"),
   ("trans_date", "transaction_date"),
   ("txn_date", "transaction_date"),
   ("date", "transaction_date"),
   ("type", "transaction_type"),
   ("txn_type", "transaction_type"),
   ("desc", "description"),
   ("txn_desc", "description")]

/-- Model of IngestionNode._standardize_columns on one column name:
lower-case, spaces and hyphens to underscores, then the synonym renaming. -/
def standardizeColumn (s : String) : String :=
  let t := colTransform s
  (columnMappings.lookup t).getD t

example : standardizeColumn "Txn ID" = "transaction_id" := by decide
example : standardizeColumn "transaction_id" = "transaction_id" := by decide

/-! Cleaning node (nodes/cleaning_node.py): per-field canonicalization
functions. -/

/-- Characters kept by _clean_transaction_id / _clean_customer_id: ASCII
alphanumerics, hyphen and underscore. -/
def isIdChar (c : Char) : Bool :=
  ('a' ≤ c && c ≤ 'z') || ('A' ≤ c && c ≤ 'Z') || ('0' ≤ c && c ≤ '9') ||
    c = '_' || c = '-'

/-- Model of CleaningNode._clean_transaction_id on a string value: strip,
drop characters outside alphanumerics/hyphen/underscore, upper-case. -/
def cleanTransactionId (s : String) : String :=
  upperStr ⟨(trimWs s.data).filter isIdChar⟩

/-- Model of CleaningNode._clean_customer_id on a string value (same body as
the transaction-id cleaner). -/
def cleanCustomerId (s : String) : String := cleanTransactionId s

/-- String preprocessing of _clean_amount: strip, then remove currency
symbols and commas everywhere, then turn accounting (…) parenthesis notation
into a leading minus sign. -/
def amountPreprocess (s : String) : String :=
  let l := (trimWs s.data).filter (fun c => !([ '$', '€', '£', '¥', ','].contains c))
  match l with
  | [] => ⟨[]⟩
  | a :: rest =>
    if a = '(' ∧ l.getLast? = some ')' then ⟨'-' :: (a :: rest).dropLast.drop 1⟩
    else ⟨l⟩

/-- Model of CleaningNode._clean_amount.  Null coerces to 0.0; strings are
preprocessed and parsed with float(); booleans follow float(True) = 1.0;
timestamps make float() raise TypeError, which the except branch turns into
0.0; every parsed number is rounded to 2 decimal places. -/
def cleanAmount : Value → ℚ
  | .null => 0
  | .str s =>
    match parseFloatQ (amountPreprocess s) with
    | some q => round2 q
    | none => 0
  | .num q => round2 q
  | .boolean b => round2 (if b then 1 else 0)
  | .date _ => 0

/-- Synonym table of _clean_status. -/
def statusMap : List (String × String) :=
  [("complete", "completed"),
   ("success", "completed"),
   ("successful", "completed"),
   ("approved", "completed"),
   ("done", "completed"),
   ("fail", "failed"),
   ("failure", "failed"),
   ("declined", "failed"),
   ("rejected", "failed"),
   ("cancel", "cancelled"),
   ("canceled", "cancelled"),
   ("process", "processing"),
   ("processing", "processing"),
   ("pend", "pending"),
   ("waiting", "pending")]

/-- Model of _clean_status on a string value: lower-case, strip, then the
synonym map with unrecognized values passing through. -/
def cleanStatusS (s : String) : String :=
  let t := stripStr (lowerStr s)
  (statusMap.lookup t).getD t

/-- Synonym table of _clean_transaction_type. -/
def typeMap : List (String × String) :=
  [("dep", "deposit"),
   ("credit", "deposit"),
   ("withdraw", "withdrawal"),
   ("withdrawal", "withdrawal"),
   ("debit", "withdrawal"),
   ("transfer", "transfer"),
   ("xfer", "transfer"),
   ("payment", "payment"),
   ("pay", "payment"),
   ("purchase", "payment"),
   ("refund", "refund"),
   ("return", "refund")]

/-- Model of _clean_transaction_type on a string value. -/
def cleanTypeS (s : String) : String :=
  let t := stripStr (lowerStr s)
  (typeMap.lookup t).getD t

/-- Characters kept by _clean_description: word characters, whitespace and
the punctuation class of the regex. -/
def isDescChar (c : Char) : Bool :=
  ('a' ≤ c && c ≤ 'z') || ('A' ≤ c && c ≤ 'Z') || ('0' ≤ c && c ≤ '9') ||
    c = '_' || isWs c || c = '-' || c = '.' || c = ',' || c = '!' || c = '?' ||
    c = '(' || c = ')'

/-- Collapse runs of whitespace to single spaces (re.sub on backslash-s+). -/
def collapseWs : List Char → List Char
  | [] => []
  | c :: l =>
    if isWs c then
      ' ' :: collapseWs (l.dropWhile isWs)
    else c :: collapseWs l
termination_by l => l.length
decreasing_by
  · simp only [List.length_cons]
    exact Nat.lt_succ_of_le (List.dropWhile_suffix isWs).length_le
  · simp

/-- Model of _clean_description on a string value: strip, collapse whitespace
runs, drop characters outside the allowed class. -/
def cleanDescription (s : String) : String :=
  ⟨(collapseWs (trimWs s.data)).filter isDescChar⟩

example : cleanStatusS " Success " = "completed" := by decide
example : cleanTypeS "XFER" = "transfer" := by decide
example : cleanTransactionId " tx-9 a" = "TX-9A" := by decide

/-! Validation node (nodes/validation_node.py). -/

/-- One row-level validation failure: the field, the message, and the
offending value, as appended to row_errors by ValidationNode.execute. -/
structure VErr where
  field : String
  error : String
  value : Option Value
deriving DecidableEq, Repr

/-- Default required column list of ValidationNode. -/
def requiredColumns : List String :=
  ["transaction_id", "customer_id", "amount", "transaction_date", "status"]

/-- Model of _check_required_columns: the required columns absent from the
frame, in required-column order. -/
def checkRequiredColumns (df : DataFrame) : List String :=
  requiredColumns.filter (fun c => !(df.cols.contains c))

/-- Model of _validate_transaction_id: null fails, otherwise str(value) must
be non-empty (str() of a number, boolean or timestamp is never empty). -/
def validateTransactionId (v : Option Value) : Bool :=
  match v with
  | none => false
  | some .null => false
  | some (.str s) => !s.isEmpty
  | some _ => true

/-- Model of _validate_customer_id (same body as the transaction-id check).
-/
def validateCustomerId (v : Option Value) : Bool := validateTransactionId v

/-- Model of _validate_amount: empty string means the check passed; float()
on strings follows parseFloatQ; float(True) is 1.0 and float(False) is 0.0;
float() on a timestamp raises TypeError, caught as not-a-number. -/
def validateAmount (v : Option Value) : String :=
  match v with
  | none => "Amount is missing"
  | some .null => "Amount is missing"
  | some (.num q) => if q = 0 then "Amount is zero" else ""
  | some (.str s) =>
    match parseFloatQ s with
    | some q => if q = 0 then "Amount is zero" else ""
    | none => "Amount is not a valid number"
  | some (.boolean b) => if b then "" else "Amount is zero"
  | some (.date _) => "Amount is not a valid number"

/-- Range part of _validate_date: not in the future and at most 10 years
(3650 Timedelta days, i.e. the floored day difference) old. -/
def dateRangeCheck (now t : ℚ) : String :=
  if now < t then "Date is in the future"
  else if 3650 < ⌊now - t⌋ then "Date is more than 10 years old"
  else ""

/-- Model of _validate_date.  String dates go through pd.to_datetime, an
external collaborator modelled by the parseDate argument; numbers are epoch
offsets for pd.to_datetime and are range-checked directly; booleans make
pd.to_datetime raise, reported as an invalid format. -/
def validateDate (parseDate : String → Option ℚ) (now : ℚ) (v : Option Value) :
    String :=
  match v with
  | none => "Date is missing"
  | some .null => "Date is missing"
  | some (.date t) => dateRangeCheck now t
  | some (.str s) =>
    match parseDate s with
    | some t => dateRangeCheck now t
    | none => "Invalid date format"
  | some (.num q) => dateRangeCheck now q
  | some (.boolean _) => "Invalid date format"

/-- Canonical status set of _validate_status. -/
def validStatuses : List String :=
  ["completed", "pending", "failed", "cancelled",
   "success", "approved", "declined", "processing"]

/-- Model of _validate_status: only lower-cased string members of the
canonical set pass; null and non-strings fail. -/
def validateStatus (v : Option Value) : Bool :=
  match v with
  | some (.str s) => validStatuses.contains (lowerStr s)
  | _ => false

/-- Model of the per-row check sequence of ValidationNode.execute: the
row_errors list, in source order. -/
def rowErrors (parseDate : String → Option ℚ) (now : ℚ) (r : Row) : List VErr :=
  (if validateTransactionId (rowCell r "transaction_id") then []
   else [⟨"transaction_id", "Invalid or missing transaction ID",
          rowCell r "transaction_id"⟩]) ++
  (if validateCustomerId (rowCell r "customer_id") then []
   else [⟨"customer_id", "Invalid or missing customer ID",
          rowCell r "customer_id"⟩]) ++
  (let e := validateAmount (rowCell r "amount")
   if e = "" then [] else [⟨"amount", e, rowCell r "amount"⟩]) ++
  (let e := validateDate parseDate now (rowCell r "transaction_date")
   if e = "" then []
   else [⟨"transaction_date", e, rowCell r "transaction_date"⟩]) ++
  (if validateStatus (rowCell r "status") then []
   else [⟨"status", "Invalid or missing status", rowCell r "status"⟩])

/-- Opaque rendering of a row_errors list, standing in for Python's
str(row_errors) stored in the validation_errors cell; nothing downstream
reads this text back. -/
def renderVErrs (errs : List VErr) : String :=
  String.intercalate ", " (errs.map (fun e => e.field))

/-- Annotation written by the row loop of ValidationNode.execute: is_valid on
every row, validation_errors only on invalid rows. -/
def annotateValid (r : Row) (errs : List VErr) : Row :=
  if errs.isEmpty then setCell r "is_valid" (.boolean true)
  else
    setCell (setCell r "is_valid" (.boolean false)) "validation_errors"
      (.str (renderVErrs errs))

/-- Failure message of the structural check, standing in for the Python
f-string carrying the missing-column list. -/
def missingColumnsMessage (missing : List String) : String :=
  "Missing required columns: " ++ String.intercalate ", " missing

/-- Result dictionary of ValidationNode.execute.  The metric fields are flat
here; on the failure path the source dictionary has no metric keys, modelled
by zeroed fields that no caller reads. -/
structure ValidationResult where
  success : Bool
  error : Option String
  dataframe : DataFrame
  totalRows : ℕ
  validRows : ℕ
  invalidRows : ℕ
  validationRate : ℚ
  errorCount : ℕ
  validationErrors : List VErr
  rowsWithErrors : List ℕ
deriving DecidableEq, Repr

/-- Model of ValidationNode.execute: structural column check first, then the
independent per-row scan, annotation, and metric computation.  Operates on a
copy of the caller's frame; the copy semantics are studied separately in the
heap model at the end of this file. -/
def validationExecute (parseDate : String → Option ℚ) (now : ℚ)
    (df : DataFrame) : ValidationResult :=
  let missing := checkRequiredColumns df
  if missing.isEmpty then
    let errsPerRow := df.rows.map (rowErrors parseDate now)
    let rows2 := List.zipWith annotateValid df.rows errsPerRow
    let rowsWithErr :=
      (errsPerRow.enum.filter (fun p => !p.2.isEmpty)).map Prod.fst
    let allErrs := errsPerRow.flatten
    let total := df.rows.length
    let valid := total - rowsWithErr.length
    let rate : ℚ := if total > 0 then (valid : ℚ) / (total : ℚ) * 100 else 0
    let cols2 :=
      if df.rows.isEmpty then df.cols
      else if allErrs.isEmpty then addCol df.cols "is_valid"
      else addCol (addCol df.cols "is_valid") "validation_errors"
    { success := true
      error := none
      dataframe := ⟨cols2, rows2⟩
      totalRows := total
      validRows := valid
      invalidRows := rowsWithErr.length
      validationRate := round2 rate
      errorCount := allErrs.length
      validationErrors := allErrs.take 100
      rowsWithErrors := rowsWithErr.take 100 }
  else
    { success := false
      error := some (missingColumnsMessage missing)
      dataframe := df
      totalRows := 0
      validRows := 0
      invalidRows := 0
      validationRate := 0
      errorCount := 0
      validationErrors := []
      rowsWithErrors := [] }

/-! Cleaning node (nodes/cleaning_node.py): the per-row pass and the three
dataset-level passes. -/

/-- Representative rendering of str(value) for non-string scalars passed to
the string cleaners.  The exact Python float formatting is not reproduced;
no claim depends on this text. -/
def pyStr : Value → String
  | .null => "nan"
  | .str s => s
  | .num q => toString q
  | .boolean true => "True"
  | .boolean false => "False"
  | .date t => toString t

/-- Value-level _clean_transaction_id: str() then strip, drop disallowed
characters, upper-case. -/
def cleanTransactionIdV : Value → String
  | .null => ""
  | .str s => cleanTransactionId s
  | w => cleanTransactionId (pyStr w)

/-- Value-level _clean_customer_id. -/
def cleanCustomerIdV : Value → String
  | .null => ""
  | .str s => cleanCustomerId s
  | w => cleanCustomerId (pyStr w)

/-- Value-level _clean_status: null gives the "unknown" default. -/
def cleanStatusV : Value → String
  | .null => "unknown"
  | .str s => cleanStatusS s
  | w => cleanStatusS (pyStr w)

/-- Value-level _clean_transaction_type. -/
def cleanTypeV : Value → String
  | .null => "unknown"
  | .str s => cleanTypeS s
  | w => cleanTypeS (pyStr w)

/-- Value-level _clean_description. -/
def cleanDescriptionV : Value → String
  | .null => ""
  | .str s => cleanDescription s
  | w => cleanDescription (pyStr w)

/-- Python equality (the == / != operator) between two cell values: numbers
and booleans compare by numeric value (True == 1.0 holds), values of
unrelated types are unequal, and NaN is equal to nothing, itself included.
The cleaning row loop compares each cleaned value against the stored one
with this relation. -/
def pyEq (a b : Value) : Bool :=
  match a, b with
  | .num x, .num y => x == y
  | .num x, .boolean c => x == (if c then (1 : ℚ) else 0)
  | .boolean c, .num y => (if c then (1 : ℚ) else 0) == y
  | .boolean c, .boolean d => c == d
  | .str s, .str t => s == t
  | .date s, .date t => s == t
  | _, _ => false

/-- Per-row cleaning state: the row being rewritten plus the actions and
original-value records accumulated for the cleaning log. -/
structure RowCleanState where
  row : Row
  actions : List String
  originals : List (String × Value)
deriving DecidableEq, Repr

/-- One field step of the cleaning row loop: guarded by pd.notna on the
iterrows snapshot r0, the cell is rewritten only when the cleaned value
differs from the stored one under Python's != (so a boolean amount cell,
whose float() image compares equal to it, is neither rewritten nor logged),
and the change is logged. -/
def cleanStep (r0 : Row) (field : String) (f : Value → Value)
    (action : String) (st : RowCleanState) : RowCleanState :=
  match rowCell r0 field with
  | some v =>
    if v.isNull then st
    else
      let w := f v
      if !pyEq w v then
        { row := setCell st.row field w
          actions := st.actions ++ [action]
          originals := st.originals ++ [(field, v)] }
      else st
  | none => st

/-- Currency imputation step of the row loop: fires on pd.isna, records an
action but no original value (the source skips original_values here). -/
def currencyStep (r0 : Row) (st : RowCleanState) : RowCleanState :=
  if cellIsNa r0 "currency" then
    { row := setCell st.row "currency" (.str "USD")
      actions := st.actions ++ ["Imputed missing currency with USD"]
      originals := st.originals }
  else st

/-- Model of one iteration of the cleaning row loop, in source order:
transaction_id, amount, status, transaction_type, description, currency,
customer_id. -/
def cleanRow (r0 : Row) : RowCleanState :=
  let s1 := cleanStep r0 "transaction_id"
    (fun v => .str (cleanTransactionIdV v)) "Cleaned transaction_id format"
    { row := r0, actions := [], originals := [] }
  let s2 := cleanStep r0 "amount"
    (fun v => .num (cleanAmount v)) "Normalized amount value" s1
  let s3 := cleanStep r0 "status"
    (fun v => .str (cleanStatusV v)) "Standardized status value" s2
  let s4 := cleanStep r0 "transaction_type"
    (fun v => .str (cleanTypeV v)) "Standardized transaction_type" s3
  let s5 := cleanStep r0 "description"
    (fun v => .str (cleanDescriptionV v)) "Cleaned description text" s4
  let s6 := currencyStep r0 s5
  cleanStep r0 "customer_id"
    (fun v => .str (cleanCustomerIdV v)) "Cleaned customer_id format" s6

/-- Duplicate flags of pandas duplicated(subset=transaction_id,
keep=first): a row is flagged when an earlier row holds the same key (NaN
keys duplicate each other, as in pandas). -/
def dupFlagsGo (seen : List (Option Value)) : List (Option Value) → List Bool
  | [] => []
  | k :: rest => seen.contains k :: dupFlagsGo (k :: seen) rest

/-- Duplicate flags for a row list. -/
def dupFlags (rows : List Row) : List Bool :=
  dupFlagsGo [] (rows.map (fun r => rowCell r "transaction_id"))

/-- Model of _handle_duplicates: when at least one duplicate exists, an
is_duplicate column is written for every row; otherwise the frame is
untouched. -/
def handleDuplicates (df : DataFrame) : DataFrame :=
  let flags := dupFlags df.rows
  if flags.any id then
    ⟨addCol df.cols "is_duplicate",
     List.zipWith (fun r b => setCell r "is_duplicate" (.boolean b)) df.rows
       flags⟩
  else df

/-- Fill one null balance cell from the forward-fill carry; with no carry
yet (leading nulls) the row stays unchanged. -/
def ffillCell (carry : Option Value) (r : Row) : Row :=
  match carry with
  | some w => setCell r "balance" w
  | none => r

/-- Forward fill of the balance column: null cells take the nearest
preceding non-null balance; leading nulls stay null. -/
def ffillBalance (carry : Option Value) : List Row → List Row
  | [] => []
  | r :: rest =>
    match rowCell r "balance" with
    | some v =>
      if v.isNull then ffillCell carry r :: ffillBalance carry rest
      else r :: ffillBalance (some v) rest
    | none => ffillCell carry r :: ffillBalance carry rest

/-- Model of _handle_missing_values: impute description and
transaction_type defaults when those columns exist, then forward-fill
balance. -/
def handleMissingValues (df : DataFrame) : DataFrame :=
  let r1 :=
    if df.cols.contains "description" then
      df.rows.map (fun r =>
        if cellIsNa r "description" then
          setCell r "description" (.str "No description")
        else r)
    else df.rows
  let r2 :=
    if df.cols.contains "transaction_type" then
      r1.map (fun r =>
        if cellIsNa r "transaction_type" then
          setCell r "transaction_type" (.str "unknown")
        else r)
    else r1
  let r3 := if df.cols.contains "balance" then ffillBalance none r2 else r2
  ⟨df.cols, r3⟩

/-- Cell coercion of pd.to_datetime(col, errors=coerce): timestamps pass
through, strings go through the external date parser, numbers are epoch
offsets, everything unparsable becomes NaT (null). -/
def coerceDate (parseDate : String → Option ℚ) : Option Value → Value
  | some (.date t) => .date t
  | some (.str s) =>
    match parseDate s with
    | some t => .date t
    | none => .null
  | some (.num q) => .date q
  | some (.boolean _) => .null
  | some .null => .null
  | none => .null

/-- Model of _normalize_dates: rewrite the whole transaction_date column
when present. -/
def normalizeDates (parseDate : String → Option ℚ) (df : DataFrame) :
    DataFrame :=
  if df.cols.contains "transaction_date" then
    ⟨df.cols,
     df.rows.map (fun r =>
       setCell r "transaction_date" (coerceDate parseDate (rowCell r "transaction_date")))⟩
  else df

/-- One entry of the cleaning log. -/
structure CleanLogEntry where
  rowIndex : ℕ
  actions : List String
  originals : List (String × Value)
deriving DecidableEq, Repr

/-- Result dictionary of CleaningNode.execute.  The per-row original_values
and cleaning_actions bookkeeping columns of the source frame are carried in
the cleaning log only; no later stage reads them back from the frame. -/
structure CleanResult where
  success : Bool
  error : Option String
  dataframe : DataFrame
  totalRows : ℕ
  rowsModified : ℕ
  modificationRate : ℚ
  cleaningActionsCount : ℕ
  cleaningLog : List CleanLogEntry
deriving DecidableEq, Repr

/-- Model of CleaningNode.execute: the independent per-row pass, then the
three dataset-level passes in fixed order (duplicates, missing values,
dates), then metrics, with the reported log capped at 100 entries. -/
def cleaningExecute (parseDate : String → Option ℚ) (df : DataFrame) :
    CleanResult :=
  let states := df.rows.map cleanRow
  let rows1 := states.map (fun st =>
    setCell st.row "was_cleaned" (.boolean (!st.actions.isEmpty)))
  let fullLog := (states.enum.filter (fun p => !p.2.actions.isEmpty)).map
    (fun p => CleanLogEntry.mk p.1 p.2.actions p.2.originals)
  let d2 := handleDuplicates ⟨addCol df.cols "was_cleaned", rows1⟩
  let d3 := handleMissingValues d2
  let d4 := normalizeDates parseDate d3
  let total := d4.rows.length
  { success := true
    error := none
    dataframe := d4
    totalRows := total
    rowsModified := fullLog.length
    modificationRate :=
      if total > 0 then round2 ((fullLog.length : ℚ) / (total : ℚ) * 100)
      else 0
    cleaningActionsCount := (fullLog.map (fun e => e.actions.length)).sum
    cleaningLog := fullLog.take 100 }

/-! Anomaly detector node (nodes/anomaly_detector_node.py) and the response
parsing of the Watsonx client (client.py). -/

/-- One anomaly record as appended by the detector.  The free-text
description and original_value presentation strings of the source dicts are
not modelled; claims reference type, severity, confidence, detector, field
and the listed missing fields. -/
structure Anomaly where
  rowIndex : ℕ
  transactionId : Option Value
  anomalyType : String
  severity : String
  confidence : ℚ
  detectedBy : String
  fieldName : String
  missingFields : List String
deriving DecidableEq, Repr

/-- Faithful model of float(row.get(c, 0)) including its error path: an
absent column takes the 0 default; a null cell is NaN (ok none here, since
every comparison with NaN is false); a parsable string converts; an
unparsable string raises ValueError and a timestamp raises TypeError, both
uncaught inside _rule_based_detection, so they abort the whole stage. -/
def floatCellE (r : Row) (c : String) : Except String (Option ℚ) :=
  match rowCell r c with
  | none => .ok (some 0)
  | some (.num q) => .ok (some q)
  | some (.boolean b) => .ok (some (if b then 1 else 0))
  | some .null => .ok none
  | some (.str s) =>
    match parseFloatQ s with
    | some q => .ok (some q)
    | none => .error ("could not convert string to float: " ++ s)
  | some (.date _) =>
    .error "float() argument must be a string or a real number, not Timestamp"

/-- Total projection of floatCellE used by the non-raising rule semantics:
it agrees with the source exactly on cells where float() does not raise
(theorem numCellD_floatCellE); on raising cells it returns none, a value the
raising run never produces — the faithful raising semantics is
ruleAnomaliesRowE below, which the detection claim is stated against. -/
def numCellD (r : Row) (c : String) : Option ℚ :=
  match rowCell r c with
  | none => some 0
  | some (.num q) => some q
  | some (.boolean b) => some (if b then 1 else 0)
  | some (.str s) => parseFloatQ s
  | some (.date _) => none
  | some .null => none

/-- Model of pd.notna(row.get(c)). -/
def notNaCell (r : Row) (c : String) : Bool := !(cellIsNa r c)

/-- Model of str(row.get("status", "")).lower() == t: only string cells can
match the lower-cased literal. -/
def statusEq (r : Row) (t : String) : Bool :=
  match rowCell r "status" with
  | some (.str s) => lowerStr s == t
  | _ => false

/-- Python truthiness of a cell value (row.is_duplicate); note that NaN is
truthy in Python. -/
def isTruthy : Value → Bool
  | .null => true
  | .str s => !s.isEmpty
  | .num q => q != 0
  | .boolean b => b
  | .date _ => true

/-- Required fields scanned by rule 5 of the detector. -/
def ruleRequiredFields : List String :=
  ["transaction_id", "customer_id", "amount", "status"]

/-- Model of the body of the _rule_based_detection row loop: the anomaly
entries the five rules emit for one row, in source order. -/
def ruleAnomaliesRow (idx : ℕ) (r : Row) : List Anomaly :=
  (if notNaCell r "balance" &&
      (match numCellD r "balance" with
       | some b => decide (b < 0)
       | none => false) &&
      statusEq r "completed" then
    [⟨idx, rowCell r "transaction_id", "negative_balance", "high", 0.95,
      "rule-based", "balance", []⟩]
   else []) ++
  (match numCellD r "amount" with
   | some a =>
     if a > 1000000 then
       [⟨idx, rowCell r "transaction_id", "suspicious_amount", "medium", 0.80,
         "rule-based", "amount", []⟩]
     else if a = 0 then
       [⟨idx, rowCell r "transaction_id", "suspicious_amount", "low", 0.70,
         "rule-based", "amount", []⟩]
     else []
   | none => []) ++
  (if statusEq r "failed" &&
      (match numCellD r "amount" with
       | some a => decide (0 < a)
       | none => false) &&
      notNaCell r "balance" &&
      (match numCellD r "balance", numCellD r "amount" with
       | some b, some a => decide (b ≠ a)
       | _, _ => false) then
    [⟨idx, rowCell r "transaction_id", "status_mismatch", "high", 0.90,
      "rule-based", "status", []⟩]
   else []) ++
  (match rowCell r "is_duplicate" with
   | some v =>
     if isTruthy v then
       [⟨idx, rowCell r "transaction_id", "duplicate_transaction", "medium", 1,
         "rule-based", "transaction_id", []⟩]
     else []
   | none => []) ++
  (let missing := ruleRequiredFields.filter (fun f => cellIsNa r f)
   if !missing.isEmpty then
     [⟨idx, rowCell r "transaction_id", "missing_required_field", "critical", 1,
       "rule-based", "multiple", missing⟩]
   else [])

/-- Model of _rule_based_detection: the full-scan concatenation of the
per-row rule results, in row order, in the non-raising semantics (see
ruleBasedDetectionE for the raising one). -/
def ruleBasedDetection (df : DataFrame) : List Anomaly :=
  (df.rows.enum.map (fun p => ruleAnomaliesRow p.1 p.2)).flatten

/-- Faithful model of one _rule_based_detection loop iteration including
Python's evaluation order and raises: rule 1 evaluates float(balance) only
under its pd.notna guard (and may raise there); rule 2 evaluates
float(amount) unconditionally (and may raise); rule 3 short-circuits, so its
float calls repeat already-performed conversions and raise nothing new;
rules 4 and 5 convert nothing.  An error aborts the iteration — and with it
the stage — exactly as the uncaught exception does in the source. -/
def ruleAnomaliesRowE (idx : ℕ) (r : Row) : Except String (List Anomaly) :=
  let e1 : Except String (List Anomaly) :=
    if notNaCell r "balance" then
      match floatCellE r "balance" with
      | .error e => .error e
      | .ok b? =>
        .ok (match b? with
          | some b =>
            if b < 0 ∧ statusEq r "completed" then
              [⟨idx, rowCell r "transaction_id", "negative_balance", "high",
                0.95, "rule-based", "balance", []⟩]
            else []
          | none => [])
    else .ok []
  match e1 with
  | .error e => .error e
  | .ok a1 =>
    match floatCellE r "amount" with
    | .error e => .error e
    | .ok a? =>
      let a2 :=
        match a? with
        | some a =>
          if a > 1000000 then
            [⟨idx, rowCell r "transaction_id", "suspicious_amount", "medium",
              0.80, "rule-based", "amount", []⟩]
          else if a = 0 then
            [⟨idx, rowCell r "transaction_id", "suspicious_amount", "low",
              0.70, "rule-based", "amount", []⟩]
          else []
        | none => []
      let e3 : Except String (List Anomaly) :=
        if statusEq r "failed" then
          match a? with
          | some a =>
            if 0 < a ∧ notNaCell r "balance" then
              match floatCellE r "balance" with
              | .error e => .error e
              | .ok b? =>
                .ok (match b? with
                  | some b =>
                    if b ≠ a then
                      [⟨idx, rowCell r "transaction_id", "status_mismatch",
                        "high", 0.90, "rule-based", "status", []⟩]
                    else []
                  | none => [])
            else .ok []
          | none => .ok []
        else .ok []
      match e3 with
      | .error e => .error e
      | .ok a3 =>
        let a4 :=
          match rowCell r "is_duplicate" with
          | some v =>
            if isTruthy v then
              [⟨idx, rowCell r "transaction_id", "duplicate_transaction",
                "medium", 1, "rule-based", "transaction_id", []⟩]
            else []
          | none => []
        let a5 :=
          let missing := ruleRequiredFields.filter (fun f => cellIsNa r f)
          if !missing.isEmpty then
            [⟨idx, rowCell r "transaction_id", "missing_required_field",
              "critical", 1, "rule-based", "multiple", missing⟩]
          else []
        .ok (a1 ++ a2 ++ a3 ++ a4 ++ a5)

/-- Row loop of the raising semantics: anomalies of earlier rows are
accumulated until the first raising row, whose exception aborts the scan
with nothing emitted for it or any later row. -/
def ruleRowsE : List (ℕ × Row) → Except String (List Anomaly)
  | [] => .ok []
  | p :: rest =>
    match ruleAnomaliesRowE p.1 p.2 with
    | .error e => .error e
    | .ok a =>
      match ruleRowsE rest with
      | .error e => .error e
      | .ok res => .ok (a ++ res)

/-- Faithful model of _rule_based_detection including the raise: ok with the
emitted list when every row converts, error when some row's float() raises
(the stage then aborts and the orchestrator's boundary records the fault). -/
def ruleBasedDetectionE (df : DataFrame) : Except String (List Anomaly) :=
  ruleRowsE df.rows.enum

/-- Parsed shape of the structured five-line completion response
(client._parse_anomaly_response). -/
structure LlmParsed where
  isAnomaly : Bool
  confidence : ℚ
  anomalyType : String
  severity : String
  explanation : String
deriving DecidableEq, Repr

/-- Substring containment test, modelling Python's in operator on strings.
-/
def containsSub (needle hay : List Char) : Bool :=
  hay.tails.any (fun t => needle.isPrefixOf t)

/-- Split a character list at every occurrence of a separator, keeping empty
segments, as Python str.split(sep) does. -/
def splitOnChar (sep : Char) : List Char → List (List Char)
  | [] => [[]]
  | c :: rest =>
    let r := splitOnChar sep rest
    if c = sep then [] :: r
    else (c :: r.headD []) :: r.tail

/-- Prefix test on strings, modelling str.startswith. -/
def startsWithS (s pre : String) : Bool := pre.data.isPrefixOf s.data

/-- Last colon-separated segment of a line: line.split(":")[-1]. -/
def lastSegColon (line : String) : String :=
  ⟨(splitOnChar ':' line.data).getLastD []⟩

/-- Text after the first colon, or the whole line when no colon exists:
line.split(":", 1)[-1]. -/
def afterFirstColon (l : List Char) : List Char :=
  match l.dropWhile (fun c => c ≠ ':') with
  | _ :: rest => rest
  | [] => l

/-- Replace spaces by underscores: str.replace(" ", "_"). -/
def replaceSpaces (s : String) : String :=
  ⟨s.data.map (fun c => if c = ' ' then '_' else c)⟩

/-- One line of the permissive response parsing: recognized prefixes update
one field, an unparsable confidence is ignored, unrecognized lines are
skipped. -/
def parseLine (acc : LlmParsed) (rawLine : String) : LlmParsed :=
  let line := stripStr rawLine
  if startsWithS line "IS_ANOMALY:" then
    { acc with isAnomaly := containsSub "YES".data (upperStr line).data }
  else if startsWithS line "CONFIDENCE:" then
    match parseFloatQ (stripStr (lastSegColon line)) with
    | some q => { acc with confidence := q }
    | none => acc
  else if startsWithS line "ANOMALY_TYPE:" then
    { acc with anomalyType := replaceSpaces (lowerStr (stripStr (lastSegColon line))) }
  else if startsWithS line "SEVERITY:" then
    { acc with severity := lowerStr (stripStr (lastSegColon line)) }
  else if startsWithS line "EXPLANATION:" then
    { acc with explanation := stripStr ⟨afterFirstColon line.data⟩ }
  else acc

/-- Model of WatsonxClient._parse_anomaly_response: fold the line handler
over the stripped response split at newlines, starting from the permissive
defaults. -/
def parseAnomalyResponse (response : String) : LlmParsed :=
  (((splitOnChar '\n' (stripStr response).data).map
      (fun l => (⟨l⟩ : String)))).foldl parseLine
    { isAnomaly := false
      confidence := 0
      anomalyType := "other"
      severity := "medium"
      explanation := response }

/-- Model of WatsonxClient.detect_anomaly: the completion-service outcome
(ok text, or a raised error) is parsed, and any raise is caught and turned
into a non-anomalous result.  The caught branch of the source returns a dict
without anomaly_type or severity keys; the caller never reads them because
is_anomaly is false, so the defaults used here are inconsequential. -/
def detectAnomalyClient (gen : Except String String) : LlmParsed :=
  match gen with
  | .ok text => parseAnomalyResponse text
  | .error e =>
    { isAnomaly := false
      confidence := 0
      anomalyType := "other"
      severity := "medium"
      explanation := "Error: " ++ e }

/-- Model of AnomalyDetectorNode._llm_detection: some anomaly record exactly
when the client result reports an anomaly with confidence at or above the
threshold, otherwise the empty dict (none). -/
def llmDetection (threshold : ℚ) (idx : ℕ) (txnId : Option Value)
    (gen : Except String String) : Option Anomaly :=
  let res := detectAnomalyClient gen
  if res.isAnomaly ∧ threshold ≤ res.confidence then
    some ⟨idx, txnId, res.anomalyType, res.severity, res.confidence,
      "watsonx-llm", "", []⟩
  else none

/-- Keys of the anomaly record dict built by _llm_detection, copied from the
source literal. -/
def llmAnomalyDictKeys : List String :=
  ["row_index", "transaction_id", "anomaly_type", "severity", "confidence",
   "detected_by", "description", "llm_explanation", "context"]

/-- Model of the acceptance guard of AnomalyDetectorNode.execute on one
gathered result: isinstance(result, dict) and result.get("is_anomaly").
For the empty dict the lookup yields None.  For a non-empty record the
lookup runs over llmAnomalyDictKeys; the source literal has no is_anomaly
key, so the lookup also yields the falsy None — the guard discards every
model-derived record. -/
def llmResultAccepted : Option Anomaly → Bool
  | none => false
  | some _ => llmAnomalyDictKeys.contains "is_anomaly"

/-- Result dictionary of AnomalyDetectorNode.execute. -/
structure AnomalyResult where
  success : Bool
  error : Option String
  dataframe : DataFrame
  totalRows : ℕ
  anomaliesDetected : ℕ
  anomalyRate : ℚ
  ruleBasedCount : ℕ
  llmDetectedCount : ℕ
  anomalies : List Anomaly
deriving DecidableEq, Repr

/-- Model of AnomalyDetectorNode.execute.  The sampled row indices and the
completion service are parameters: the source draws the sample with pandas
seeded sampling and awaits the completion calls concurrently; both are
external to the dataset semantics.  Rows referenced by accepted anomalies
are marked is_anomaly.  This models the runs on which the node returns: on
a row whose float() raises (ruleBasedDetectionE's error case) the method
raises instead of returning and the exception surfaces at the
orchestrator's boundary (StageCall.threw in the pipeline model). -/
def anomalyExecute (threshold : ℚ) (sampleIdx : List ℕ)
    (gen : ℕ → Except String String) (df : DataFrame) : AnomalyResult :=
  let rows1 := df.rows.map (fun r => setCell r "is_anomaly" (.boolean false))
  let df1 : DataFrame := ⟨addCol df.cols "is_anomaly", rows1⟩
  let ruleList := ruleBasedDetection df1
  let llmResults := sampleIdx.map (fun i =>
    llmDetection threshold i (rowCell (df1.rows.getD i []) "transaction_id")
      (gen i))
  let accepted := (llmResults.filter llmResultAccepted).filterMap id
  let anomalies := ruleList ++ accepted
  let rows2 := accepted.foldl
    (fun rs a => modifyAt rs a.rowIndex
      (fun r => setCell r "is_anomaly" (.boolean true))) df1.rows
  let rows3 := ruleList.foldl
    (fun rs a => modifyAt rs a.rowIndex
      (fun r => setCell r "is_anomaly" (.boolean true))) rows2
  let total := rows3.length
  { success := true
    error := none
    dataframe := ⟨df1.cols, rows3⟩
    totalRows := total
    anomaliesDetected := anomalies.length
    anomalyRate :=
      if total > 0 then round2 ((anomalies.length : ℚ) / (total : ℚ) * 100)
      else 0
    ruleBasedCount := ruleList.length
    llmDetectedCount :=
      (anomalies.filter (fun a => a.detectedBy == "watsonx-llm")).length
    anomalies := anomalies }

/-! Pipeline orchestrator (pipeline.py). -/

/-- Outcome of awaiting one node's execute call: a returned result
dictionary, or an exception propagating out of the stage. -/
inductive StageCall (α : Type) where
  | retOk : α → StageCall α
  | threw : String → StageCall α
deriving DecidableEq, Repr

/-- Result dictionary of IngestionNode.execute, reduced to the fields the
orchestrator reads. -/
structure IngResult where
  success : Bool
  error : Option String
  dataframe : DataFrame
  rowsIngested : ℕ
deriving DecidableEq, Repr

/-- One record of the pipeline errors list. -/
structure ErrRec where
  stage : String
  error : Option String
deriving DecidableEq, Repr

/-- One entry of the per-stage results map, reduced to name and status. -/
structure PipelineStage where
  name : String
  status : String
deriving DecidableEq, Repr

/-- Metrics computed by DataPipeline._compute_review_metrics. -/
structure ReviewMetrics where
  qualityScore : ℚ
  completenessScore : ℚ
  validationRate : ℚ
  anomalyRate : ℚ
  cleaningRate : ℚ
  totalErrors : ℕ
  improvementPercentage : ℚ
deriving DecidableEq, Repr

/-- Overall metrics of a completed run. -/
structure OverallMetrics where
  totalRowsIngested : ℕ
  validRows : ℕ
  invalidRows : ℕ
  cleanedRows : ℕ
  anomaliesDetected : ℕ
  qualityScore : ℚ
  durationSeconds : ℚ
deriving DecidableEq, Repr

/-- The pipeline result structure returned by execute_full_pipeline. -/
structure PipelineResult where
  status : String
  stages : List PipelineStage
  errors : List ErrRec
  review : Option ReviewMetrics
  overall : Option OverallMetrics
  publishedRows : Option ℕ
deriving DecidableEq, Repr

/-- Model of DataPipeline._compute_review_metrics: quality score from the
unrounded validation score minus the anomaly penalty clamped at 0,
completeness from the null-cell census, pass-through rates, and the summed
error total. -/
def computeReviewMetrics (df : DataFrame) (valRes : ValidationResult)
    (cleanRes : CleanResult) (anomRes : AnomalyResult) : ReviewMetrics :=
  let total := df.rows.length
  let valid := valRes.validRows
  let anomalyCount := anomRes.anomalies.length
  let validationScore : ℚ :=
    if total > 0 then (valid : ℚ) / (total : ℚ) * 100 else 0
  let anomalyPenalty : ℚ :=
    if total > 0 then (anomalyCount : ℚ) / (total : ℚ) * 100 else 0
  let quality := max 0 (validationScore - anomalyPenalty)
  let totalCells := total * df.cols.length
  let nullCells :=
    (df.rows.map (fun r => (df.cols.filter (fun c => cellIsNa r c)).length)).sum
  let completeness : ℚ :=
    if totalCells > 0 then
      ((totalCells : ℚ) - (nullCells : ℚ)) / (totalCells : ℚ) * 100
    else 0
  { qualityScore := round2 quality
    completenessScore := round2 completeness
    validationRate := valRes.validationRate
    anomalyRate := anomRes.anomalyRate
    cleaningRate := cleanRes.modificationRate
    totalErrors := valRes.errorCount + anomalyCount
    improvementPercentage := round2 cleanRes.modificationRate }

/-- Model of DataPipeline.execute_full_pipeline.  The four node behaviours
are parameters (the validation, cleaning and anomaly arguments receive the
predecessor's dataframe); a StageCall.threw value stands for an exception
escaping the awaited node, caught by the orchestrator's outer except block,
which records stage "pipeline".  The wall-clock duration is a parameter. -/
def executeFullPipeline (duration : ℚ) (ing : StageCall IngResult)
    (val : DataFrame → StageCall ValidationResult)
    (clean : DataFrame → StageCall CleanResult)
    (anom : DataFrame → StageCall AnomalyResult) : PipelineResult :=
  match ing with
  | .threw m => ⟨"failed", [], [⟨"pipeline", some m⟩], none, none, none⟩
  | .retOk ir =>
    if !ir.success then
      ⟨"failed", [], [⟨"ingestion", ir.error⟩], none, none, none⟩
    else
      let st1 := [PipelineStage.mk "ingestion" "completed"]
      match val ir.dataframe with
      | .threw m => ⟨"failed", st1, [⟨"pipeline", some m⟩], none, none, none⟩
      | .retOk vr =>
        if !vr.success then
          ⟨"failed", st1, [⟨"validation", vr.error⟩], none, none, none⟩
        else
          let st2 := st1 ++ [PipelineStage.mk "validation" "completed"]
          match clean vr.dataframe with
          | .threw m =>
            ⟨"failed", st2, [⟨"pipeline", some m⟩], none, none, none⟩
          | .retOk cr =>
            if !cr.success then
              ⟨"failed", st2, [⟨"cleaning", cr.error⟩], none, none, none⟩
            else
              let st3 := st2 ++ [PipelineStage.mk "cleaning" "completed"]
              match anom cr.dataframe with
              | .threw m =>
                ⟨"failed", st3, [⟨"pipeline", some m⟩], none, none, none⟩
              | .retOk ar =>
                if !ar.success then
                  ⟨"failed", st3, [⟨"anomaly_detection", ar.error⟩],
                   none, none, none⟩
                else
                  let st4 := st3 ++
                    [PipelineStage.mk "anomaly_detection" "completed"]
                  let rm := computeReviewMetrics ar.dataframe vr cr ar
                  let st6 := st4 ++ [PipelineStage.mk "review" "completed",
                    PipelineStage.mk "publishing" "completed"]
                  ⟨"completed", st6, [], some rm,
                   some ⟨ir.rowsIngested, vr.validRows, vr.invalidRows,
                     cr.rowsModified, ar.anomalies.length, rm.qualityScore,
                     duration⟩,
                   some ar.dataframe.rows.length⟩

/-! Heap model for the copy discipline of the three nodes (claim about
frame effects).  Dataframe objects live in a heap addressed by natural
numbers; each node first allocates a fresh object holding a copy of its
input (df = dataframe.copy()) and then performs all of its writes at the
fresh address only. -/

/-- A heap of dataframe objects. -/
abbrev Heap := List DataFrame

/-- Read one heap address. -/
def hget (h : Heap) (i : ℕ) : DataFrame := (h.get? i).getD ⟨[], []⟩

/-- Run one node body on the heap: allocate a copy of the dataframe at
address r, then apply every write of the node at the fresh address.  Returns
the updated heap and the address of the node's result frame. -/
def runNodeOnHeap (body : DataFrame → DataFrame) (h : Heap) (r : ℕ) :
    Heap × ℕ :=
  let c := h.length
  let h1 := h ++ [hget h r]
  let h2 := h1.set c (body (hget h1 c))
  (h2, c)

/-- Validation node acting on the heap. -/
def validationNodeHeap (parseDate : String → Option ℚ) (now : ℚ) (h : Heap)
    (r : ℕ) : Heap × ℕ :=
  runNodeOnHeap (fun df => (validationExecute parseDate now df).dataframe) h r

/-- Cleaning node acting on the heap. -/
def cleaningNodeHeap (parseDate : String → Option ℚ) (h : Heap) (r : ℕ) :
    Heap × ℕ :=
  runNodeOnHeap (fun df => (cleaningExecute parseDate df).dataframe) h r

/-- Anomaly detector node acting on the heap. -/
def anomalyNodeHeap (threshold : ℚ) (sampleIdx : List ℕ)
    (gen : ℕ → Except String String) (h : Heap) (r : ℕ) : Heap × ℕ :=
  runNodeOnHeap (fun df => (anomalyExecute threshold sampleIdx gen df).dataframe) h r

/-! Generic lemmas about the row and list primitives. -/

theorem lookup_setCell_same (r : Row) (c : String) (v : Value) :
    (setCell r c v).lookup c = some v := by
  induction r with
  | nil => simp [setCell, List.lookup]
  | cons p r ih =>
    obtain ⟨k, w⟩ := p
    by_cases h : k = c
    · simp [setCell, h, List.lookup]
    · have hb : (c == k) = false := by
        simp [beq_eq_false_iff_ne]
        exact fun hc => h hc.symm
      simp [setCell, h, List.lookup, hb, ih]

theorem lookup_setCell_ne (r : Row) (c c' : String) (v : Value)
    (h : c' ≠ c) : (setCell r c v).lookup c' = r.lookup c' := by
  induction r with
  | nil =>
    have hb : (c' == c) = false := by simpa [beq_eq_false_iff_ne] using h
    simp [setCell, List.lookup, hb]
  | cons p r ih =>
    obtain ⟨k, w⟩ := p
    by_cases hk : k = c
    · subst hk
      have hb : (c' == k) = false := by simpa [beq_eq_false_iff_ne] using h
      simp [setCell, List.lookup, hb]
    · by_cases hck : c' = k
      · subst hck
        simp [setCell, hk, List.lookup]
      · have hb : (c' == k) = false := by simpa [beq_eq_false_iff_ne] using hck
        simp [setCell, hk, List.lookup, hb, ih]

theorem length_modifyAt (l : List α) (j : ℕ) (f : α → α) :
    (modifyAt l j f).length = l.length := by
  induction l generalizing j with
  | nil => rfl
  | cons a l ih =>
    cases j with
    | zero => rfl
    | succ n => simp [modifyAt, ih]

theorem getElem?_modifyAt (l : List α) (j i : ℕ) (f : α → α) :
    (modifyAt l j f)[i]? = if i = j then Option.map f l[i]? else l[i]? := by
  induction l generalizing i j with
  | nil => simp [modifyAt]
  | cons a l ih =>
    cases j with
    | zero =>
      cases i with
      | zero => simp [modifyAt]
      | succ m => simp [modifyAt]
    | succ n =>
      cases i with
      | zero => simp [modifyAt]
      | succ m => simpa [modifyAt, Nat.succ_inj] using ih n m

theorem length_dupFlagsGo (seen : List (Option Value))
    (ks : List (Option Value)) : (dupFlagsGo seen ks).length = ks.length := by
  induction ks generalizing seen with
  | nil => rfl
  | cons k ks ih => simp [dupFlagsGo, ih]

theorem length_dupFlags (rows : List Row) : (dupFlags rows).length = rows.length := by
  simp [dupFlags, length_dupFlagsGo]

theorem length_ffillBalance (carry : Option Value) (rs : List Row) :
    (ffillBalance carry rs).length = rs.length := by
  induction rs generalizing carry with
  | nil => rfl
  | cons r rs ih =>
    cases h : rowCell r "balance" with
    | none => simp [ffillBalance, h, ih]
    | some v =>
      by_cases hn : v.isNull <;> simp [ffillBalance, h, hn, ih]

/-! Stage-level structural lemmas: row counts and annotation-only writes. -/

theorem validation_rows_length (parseDate : String → Option ℚ) (now : ℚ)
    (df : DataFrame) :
    (validationExecute parseDate now df).dataframe.rows.length =
      df.rows.length := by
  unfold validationExecute
  by_cases h : (checkRequiredColumns df).isEmpty
  · simp [h, List.length_zipWith]
  · simp [h]

theorem annotateValid_lookup (r : Row) (errs : List VErr) (c : String)
    (h1 : c ≠ "is_valid") (h2 : c ≠ "validation_errors") :
    (annotateValid r errs).lookup c = r.lookup c := by
  unfold annotateValid
  split
  · exact lookup_setCell_ne _ _ _ _ h1
  · rw [lookup_setCell_ne _ _ _ _ h2, lookup_setCell_ne _ _ _ _ h1]

theorem validation_preserves_cells (parseDate : String → Option ℚ) (now : ℚ)
    (df : DataFrame) (i : ℕ) (c : String)
    (h1 : c ≠ "is_valid") (h2 : c ≠ "validation_errors") :
    rowCell ((validationExecute parseDate now df).dataframe.rows.getD i []) c =
      rowCell (df.rows.getD i []) c := by
  unfold validationExecute
  by_cases h : (checkRequiredColumns df).isEmpty
  · simp only [h, if_pos]
    rw [List.getD_eq_getElem?_getD, List.getD_eq_getElem?_getD]
    simp only [List.getElem?_zipWith, List.getElem?_map]
    cases hq : df.rows[i]? with
    | none => simp
    | some a => simp [rowCell, annotateValid_lookup _ _ _ h1 h2]
  · simp [h]

theorem handleDuplicates_length (df : DataFrame) :
    (handleDuplicates df).rows.length = df.rows.length := by
  by_cases h : (dupFlags df.rows).any id <;>
    simp [handleDuplicates, h, List.length_zipWith, length_dupFlags]

theorem handleDuplicates_preserves (df : DataFrame) (i : ℕ) (c : String)
    (h : c ≠ "is_duplicate") :
    rowCell ((handleDuplicates df).rows.getD i []) c =
      rowCell (df.rows.getD i []) c := by
  by_cases hd : (dupFlags df.rows).any id
  · simp only [handleDuplicates, hd, if_pos]
    rw [List.getD_eq_getElem?_getD, List.getD_eq_getElem?_getD]
    simp only [List.getElem?_zipWith]
    cases hq : df.rows[i]? with
    | none => simp
    | some a =>
      have hi : i < df.rows.length := by
        by_contra hge
        rw [List.getElem?_eq_none (Nat.le_of_not_lt hge)] at hq
        cases hq
      have hif : i < (dupFlags df.rows).length := by
        rw [length_dupFlags]; exact hi
      rw [List.getElem?_eq_getElem hif]
      simp [rowCell, lookup_setCell_ne _ _ _ _ h]
  · simp [handleDuplicates, hd]

theorem handleMissingValues_length (df : DataFrame) :
    (handleMissingValues df).rows.length = df.rows.length := by
  by_cases h1 : "description" ∈ df.cols <;>
    by_cases h2 : "transaction_type" ∈ df.cols <;>
      by_cases h3 : "balance" ∈ df.cols <;>
        simp [handleMissingValues, h1, h2, h3, length_ffillBalance]

theorem normalizeDates_length (parseDate : String → Option ℚ)
    (df : DataFrame) :
    (normalizeDates parseDate df).rows.length = df.rows.length := by
  unfold normalizeDates
  split
  · simp
  · rfl

theorem cleaning_rows_length (parseDate : String → Option ℚ)
    (df : DataFrame) :
    (cleaningExecute parseDate df).dataframe.rows.length = df.rows.length := by
  unfold cleaningExecute
  simp only
  rw [normalizeDates_length, handleMissingValues_length, handleDuplicates_length]
  simp

theorem length_foldl_markAnomaly (l : List Anomaly) (rs : List Row) :
    (l.foldl (fun rs a =>
      modifyAt rs a.rowIndex (fun r => setCell r "is_anomaly" (.boolean true)))
      rs).length = rs.length := by
  induction l generalizing rs with
  | nil => rfl
  | cons a l ih => simp [List.foldl_cons, ih, length_modifyAt]

theorem foldl_markAnomaly_preserves (l : List Anomaly) (rs : List Row)
    (i : ℕ) (c : String) (h : c ≠ "is_anomaly") :
    rowCell ((l.foldl (fun rs a =>
      modifyAt rs a.rowIndex (fun r => setCell r "is_anomaly" (.boolean true)))
      rs).getD i []) c = rowCell (rs.getD i []) c := by
  induction l generalizing rs with
  | nil => rfl
  | cons a l ih =>
    rw [List.foldl_cons, ih]
    rw [List.getD_eq_getElem?_getD, List.getD_eq_getElem?_getD,
      getElem?_modifyAt]
    by_cases hij : i = a.rowIndex
    · simp only [hij, if_pos]
      cases hq : rs[a.rowIndex]? with
      | none => simp
      | some r => simp [rowCell, lookup_setCell_ne _ _ _ _ h]
    · simp [hij]

theorem anomaly_rows_length (threshold : ℚ) (sampleIdx : List ℕ)
    (gen : ℕ → Except String String) (df : DataFrame) :
    (anomalyExecute threshold sampleIdx gen df).dataframe.rows.length =
      df.rows.length := by
  unfold anomalyExecute
  simp only
  rw [length_foldl_markAnomaly, length_foldl_markAnomaly]
  simp

theorem anomaly_preserves_cells (threshold : ℚ) (sampleIdx : List ℕ)
    (gen : ℕ → Except String String) (df : DataFrame) (i : ℕ) (c : String)
    (h : c ≠ "is_anomaly") :
    rowCell ((anomalyExecute threshold sampleIdx gen df).dataframe.rows.getD i []) c =
      rowCell (df.rows.getD i []) c := by
  unfold anomalyExecute
  simp only
  rw [foldl_markAnomaly_preserves _ _ _ _ h, foldl_markAnomaly_preserves _ _ _ _ h]
  rw [List.getD_eq_getElem?_getD, List.getD_eq_getElem?_getD,
    List.getElem?_map]
  cases hq : df.rows[i]? with
  | none => simp
  | some a => simp [rowCell, lookup_setCell_ne _ _ _ _ h]

theorem map_fillna_preserves (rows : List Row) (col : String) (v : Value)
    (i : ℕ) (c : String) (hc : c ≠ col) :
    rowCell ((rows.map (fun r =>
      if cellIsNa r col then setCell r col v else r)).getD i []) c =
      rowCell (rows.getD i []) c := by
  rw [List.getD_eq_getElem?_getD, List.getD_eq_getElem?_getD,
    List.getElem?_map]
  cases hq : rows[i]? with
  | none => simp
  | some r =>
    by_cases hna : cellIsNa r col <;>
      simp [hna, rowCell, lookup_setCell_ne _ _ _ _ hc]

theorem ffillCell_preserves (carry : Option Value) (r : Row) (c : String)
    (hc : c ≠ "balance") : rowCell (ffillCell carry r) c = rowCell r c := by
  cases carry with
  | none => rfl
  | some w => exact lookup_setCell_ne _ _ _ _ hc

theorem ffillBalance_preserves (c : String) (hc : c ≠ "balance")
    (rs : List Row) : ∀ carry : Option Value, ∀ i : ℕ,
    rowCell ((ffillBalance carry rs).getD i []) c =
      rowCell (rs.getD i []) c := by
  induction rs with
  | nil => intro carry i; rfl
  | cons r rest ih =>
    intro carry i
    cases hv : rowCell r "balance" with
    | none =>
      cases i with
      | zero =>
        simp [ffillBalance, hv, ffillCell_preserves _ _ _ hc]
      | succ n =>
        simp only [ffillBalance, hv]
        simpa [List.getD_eq_getElem?_getD] using ih carry n
    | some v =>
      by_cases hn : v.isNull
      · cases i with
        | zero =>
          simp [ffillBalance, hv, hn, ffillCell_preserves _ _ _ hc]
        | succ n =>
          simp only [ffillBalance, hv, hn, if_pos]
          simpa [List.getD_eq_getElem?_getD] using ih carry n
      · cases i with
        | zero => simp [ffillBalance, hv, hn]
        | succ n =>
          simp only [ffillBalance, hv, hn, if_neg, Bool.not_eq_true]
          simpa [List.getD_eq_getElem?_getD] using ih (some v) n

theorem handleMissingValues_preserves (df : DataFrame) (i : ℕ) (c : String)
    (h2 : c ≠ "description") (h3 : c ≠ "transaction_type")
    (h4 : c ≠ "balance") :
    rowCell ((handleMissingValues df).rows.getD i []) c =
      rowCell (df.rows.getD i []) c := by
  unfold handleMissingValues
  dsimp only
  split <;> split <;> split <;>
    (repeat' (first
      | rw [ffillBalance_preserves c h4]
      | rw [map_fillna_preserves _ _ _ _ _ h3]
      | rw [map_fillna_preserves _ _ _ _ _ h2])
     try rfl)

theorem normalizeDates_preserves (parseDate : String → Option ℚ)
    (df : DataFrame) (i : ℕ) (c : String) (h5 : c ≠ "transaction_date") :
    rowCell ((normalizeDates parseDate df).rows.getD i []) c =
      rowCell (df.rows.getD i []) c := by
  unfold normalizeDates
  split
  · rw [List.getD_eq_getElem?_getD, List.getD_eq_getElem?_getD,
      List.getElem?_map]
    cases hq : df.rows[i]? with
    | none => simp
    | some r => simp [rowCell, lookup_setCell_ne _ _ _ _ h5]
  · rfl

theorem cleaning_row_alignment (parseDate : String → Option ℚ)
    (df : DataFrame) (i : ℕ) (c : String) (hi : i < df.rows.length)
    (h1 : c ≠ "is_duplicate") (h2 : c ≠ "description")
    (h3 : c ≠ "transaction_type") (h4 : c ≠ "balance")
    (h5 : c ≠ "transaction_date") :
    rowCell ((cleaningExecute parseDate df).dataframe.rows.getD i []) c =
      rowCell (setCell (cleanRow (df.rows.getD i [])).row "was_cleaned"
        (Value.boolean (!(cleanRow (df.rows.getD i [])).actions.isEmpty))) c := by
  unfold cleaningExecute
  simp only
  rw [normalizeDates_preserves _ _ _ _ h5,
    handleMissingValues_preserves _ _ _ h2 h3 h4,
    handleDuplicates_preserves _ _ _ h1]
  rw [List.getD_eq_getElem?_getD]
  simp only [List.getElem?_map]
  rw [List.getElem?_eq_getElem hi]
  simp [List.getD_eq_getElem?_getD, List.getElem?_eq_getElem hi]

/-! Shared concrete fixtures used by witnesses. -/

/-- A date parser standing in for pd.to_datetime that parses nothing; the
witness rows below carry already-typed timestamps. -/
def parseDateNone : String → Option ℚ := fun _ => none

/-- A one-row concrete dataset with all required columns. -/
def dfW : DataFrame :=
  ⟨["transaction_id", "customer_id", "amount", "transaction_date", "status"],
   [[("transaction_id", Value.str "T1"), ("customer_id", Value.str "C1"),
     ("amount", Value.num 10), ("transaction_date", Value.date 100),
     ("status", Value.str "completed")]]⟩

/-- C1: the validation, cleaning and anomaly-detection stages each return a
dataset with exactly the row count of their input, and row i of the output
is derived from row i of the input: validation writes only the is_valid and
validation_errors annotations; duplicate flagging writes only is_duplicate;
anomaly detection writes only is_anomaly; and row i of the cleaning output
agrees, away from the dataset-pass columns (is_duplicate, description,
transaction_type, balance, transaction_date), with the per-row cleaner
applied to input row i — so no stage drops or reorders rows. -/
theorem stages_preserve_rows (parseDate : String → Option ℚ)
    (now threshold : ℚ) (sampleIdx : List ℕ)
    (gen : ℕ → Except String String) (df : DataFrame) :
    ((validationExecute parseDate now df).dataframe.rows.length =
        df.rows.length ∧
      (cleaningExecute parseDate df).dataframe.rows.length = df.rows.length ∧
      (anomalyExecute threshold sampleIdx gen df).dataframe.rows.length =
        df.rows.length) ∧
    (∀ i : ℕ, ∀ c : String, c ≠ "is_valid" → c ≠ "validation_errors" →
      rowCell ((validationExecute parseDate now df).dataframe.rows.getD i []) c =
        rowCell (df.rows.getD i []) c) ∧
    (∀ i : ℕ, ∀ c : String, i < df.rows.length → c ≠ "is_duplicate" →
      c ≠ "description" → c ≠ "transaction_type" → c ≠ "balance" →
      c ≠ "transaction_date" →
      rowCell ((cleaningExecute parseDate df).dataframe.rows.getD i []) c =
        rowCell (setCell (cleanRow (df.rows.getD i [])).row "was_cleaned"
          (Value.boolean (!(cleanRow (df.rows.getD i [])).actions.isEmpty))) c) ∧
    (∀ i : ℕ, ∀ c : String, c ≠ "is_duplicate" →
      rowCell ((handleDuplicates df).rows.getD i []) c =
        rowCell (df.rows.getD i []) c) ∧
    (∀ i : ℕ, ∀ c : String, c ≠ "is_anomaly" →
      rowCell ((anomalyExecute threshold sampleIdx gen df).dataframe.rows.getD i []) c =
        rowCell (df.rows.getD i []) c) := by
  refine ⟨⟨validation_rows_length _ _ _, cleaning_rows_length _ _,
    anomaly_rows_length _ _ _ _⟩, ?_, ?_, ?_, ?_⟩
  · intro i c h1 h2
    exact validation_preserves_cells parseDate now df i c h1 h2
  · intro i c hi h1 h2 h3 h4 h5
    exact cleaning_row_alignment parseDate df i c hi h1 h2 h3 h4 h5
  · intro i c h
    exact handleDuplicates_preserves df i c h
  · intro i c h
    exact anomaly_preserves_cells threshold sampleIdx gen df i c h

/-- Witness for C1 at a concrete one-row dataset: row counts, the anomaly
stage's annotation-only write, and the cleaning stage's row alignment at
index 0 on the transaction_id cell. -/
theorem stages_preserve_rows_witness :
    (validationExecute parseDateNone 200 dfW).dataframe.rows.length =
        dfW.rows.length ∧
    rowCell ((anomalyExecute 0.75 [] (fun _ => Except.error "down")
        dfW).dataframe.rows.getD 0 []) "amount" =
      rowCell (dfW.rows.getD 0 []) "amount" ∧
    rowCell ((cleaningExecute parseDateNone dfW).dataframe.rows.getD 0 [])
        "transaction_id" =
      rowCell (setCell (cleanRow (dfW.rows.getD 0 [])).row "was_cleaned"
        (Value.boolean (!(cleanRow (dfW.rows.getD 0 [])).actions.isEmpty)))
        "transaction_id" :=
  ⟨(stages_preserve_rows parseDateNone 200 0.75 []
      (fun _ => Except.error "down") dfW).1.1,
   (stages_preserve_rows parseDateNone 200 0.75 []
      (fun _ => Except.error "down") dfW).2.2.2.2 0 "amount" (by decide),
   (stages_preserve_rows parseDateNone 200 0.75 []
      (fun _ => Except.error "down") dfW).2.2.1 0 "transaction_id"
     (by decide) (by decide) (by decide) (by decide) (by decide) (by decide)⟩

/-- C2: _clean_amount maps the accounting string "($1,200.50)" to -1200.50;
in general the string path strips currency symbols and thousands separators,
turns the parenthesis accounting notation into a leading minus sign, rounds
the parsed number to 2 decimal places, and yields 0.0 for every unparsable
value (and for null) instead of raising. -/
theorem cleanAmount_spec :
    cleanAmount (Value.str "($1,200.50)") = -1200.50 ∧
    (∀ s : String, ∀ q : ℚ, parseFloatQ (amountPreprocess s) = some q →
      cleanAmount (Value.str s) = round2 q) ∧
    (∀ s : String, parseFloatQ (amountPreprocess s) = none →
      cleanAmount (Value.str s) = 0) ∧
    cleanAmount Value.null = 0 := by
  refine ⟨?_, ?_, ?_, rfl⟩
  · have hp : amountPreprocess "($1,200.50)" = "-1200.50" := by decide
    simp only [cleanAmount, hp]
    simp +decide [parseFloatQ, parseMantissa, parseExpVal, splitExp, takeSign,
      digitsVal, trimWs]
    norm_num [round2, roundHalfEven]
  · intro s q h
    simp [cleanAmount, h]
  · intro s h
    simp [cleanAmount, h]

/-- Witness for C2: the unparsable string branch at a concrete input. -/
theorem cleanAmount_spec_witness :
    parseFloatQ (amountPreprocess "abc") = none ∧
      cleanAmount (Value.str "abc") = 0 :=
  ⟨by decide, cleanAmount_spec.2.2.1 "abc" (by decide)⟩

/-- C3: with any required column absent, validation returns a structural
failure carrying the missing-column list, performs no row scan (the frame
comes back unannotated), and the orchestrated run terminates as failed with
one error record naming stage "validation", the cleaning stage never
executing (the stage map ends at ingestion, whatever the cleaning and
anomaly behaviours are). -/
theorem missing_column_short_circuit (parseDate : String → Option ℚ)
    (now duration : ℚ) (df : DataFrame) (ir : IngResult)
    (hsucc : ir.success = true) (hdf : ir.dataframe = df)
    (clean : DataFrame → StageCall CleanResult)
    (anom : DataFrame → StageCall AnomalyResult)
    (hmiss : checkRequiredColumns df ≠ []) :
    (validationExecute parseDate now df).success = false ∧
    (validationExecute parseDate now df).error =
      some (missingColumnsMessage (checkRequiredColumns df)) ∧
    (validationExecute parseDate now df).dataframe = df ∧
    (validationExecute parseDate now df).validationErrors = [] ∧
    (executeFullPipeline duration (StageCall.retOk ir)
        (fun d => StageCall.retOk (validationExecute parseDate now d)) clean
        anom).status = "failed" ∧
    (executeFullPipeline duration (StageCall.retOk ir)
        (fun d => StageCall.retOk (validationExecute parseDate now d)) clean
        anom).errors =
      [⟨"validation", some (missingColumnsMessage (checkRequiredColumns df))⟩] ∧
    (executeFullPipeline duration (StageCall.retOk ir)
        (fun d => StageCall.retOk (validationExecute parseDate now d)) clean
        anom).stages = [⟨"ingestion", "completed"⟩] := by
  have hne : (checkRequiredColumns df).isEmpty = false := by
    simpa [List.isEmpty_iff] using hmiss
  refine ⟨?_, ?_, ?_, ?_, ?_, ?_, ?_⟩ <;>
    simp [validationExecute, executeFullPipeline, hne, hsucc, hdf]

/-- Concrete dataset lacking the customer_id column. -/
def dfMissW : DataFrame :=
  ⟨["transaction_id", "amount", "transaction_date", "status"],
   [[("transaction_id", Value.str "T1")]]⟩

/-- Concrete successful ingestion result carrying dfMissW. -/
def ingMissW : IngResult := ⟨true, none, dfMissW, 1⟩

/-- Witness for C3 at the concrete dataset lacking customer_id. -/
theorem missing_column_short_circuit_witness :
    (validationExecute parseDateNone 0 dfMissW).success = false ∧
    (executeFullPipeline 0 (StageCall.retOk ingMissW)
        (fun d => StageCall.retOk (validationExecute parseDateNone 0 d))
        (fun _ => StageCall.threw "unused")
        (fun _ => StageCall.threw "unused")).status = "failed" :=
  ⟨(missing_column_short_circuit parseDateNone 0 0 dfMissW ingMissW rfl rfl
      (fun _ => StageCall.threw "unused") (fun _ => StageCall.threw "unused")
      (by decide)).1,
   (missing_column_short_circuit parseDateNone 0 0 dfMissW ingMissW rfl rfl
      (fun _ => StageCall.threw "unused") (fun _ => StageCall.threw "unused")
      (by decide)).2.2.2.2.1⟩

theorem round2_zero : round2 0 = 0 := by
  norm_num [round2, roundHalfEven]

/-- C7: for every dataset passing the structural check, the validation
metrics satisfy valid + invalid = total, the validation rate is
valid/total×100 (to the reported 2-decimal rounding, 0 when total is 0), the
error count is the total number of failing checks over all rows, and the
reported error list is the full list capped at its first 100 entries. -/
theorem validation_metrics_consistent (parseDate : String → Option ℚ)
    (now : ℚ) (df : DataFrame) (h : checkRequiredColumns df = []) :
    (validationExecute parseDate now df).validRows +
        (validationExecute parseDate now df).invalidRows =
      (validationExecute parseDate now df).totalRows ∧
    (validationExecute parseDate now df).totalRows = df.rows.length ∧
    (validationExecute parseDate now df).validationRate =
      (if 0 < df.rows.length then
        round2 (((validationExecute parseDate now df).validRows : ℚ) /
          (df.rows.length : ℚ) * 100)
      else 0) ∧
    (validationExecute parseDate now df).errorCount =
      ((df.rows.map (rowErrors parseDate now)).map List.length).sum ∧
    (validationExecute parseDate now df).validationErrors.length ≤ 100 ∧
    (validationExecute parseDate now df).validationErrors =
      (df.rows.map (rowErrors parseDate now)).flatten.take 100 := by
  have hE : (checkRequiredColumns df).isEmpty = true := by simp [h]
  have hk :
      (((df.rows.map (rowErrors parseDate now)).enum.filter
        (fun p => !p.2.isEmpty)).map Prod.fst).length ≤ df.rows.length := by
    calc (((df.rows.map (rowErrors parseDate now)).enum.filter
            (fun p => !p.2.isEmpty)).map Prod.fst).length
        = ((df.rows.map (rowErrors parseDate now)).enum.filter
            (fun p => !p.2.isEmpty)).length := by simp
      _ ≤ (df.rows.map (rowErrors parseDate now)).enum.length :=
          List.length_filter_le _ _
      _ = df.rows.length := by simp [List.enum_length]
  refine ⟨?_, ?_, ?_, ?_, ?_, ?_⟩
  · have hk2 := hk
    simp only [validationExecute, hE, if_pos]
    omega
  · simp [validationExecute, hE]
  · by_cases ht : 0 < df.rows.length
    · simp [validationExecute, hE, ht]
    · simp [validationExecute, hE, ht, round2_zero]
  · simp [validationExecute, hE, List.length_flatten]
  · simp only [validationExecute, hE, if_pos]
    exact List.length_take_le _ _
  · simp [validationExecute, hE]

/-- Two-row concrete dataset whose second row has a zero amount. -/
def df2W : DataFrame :=
  ⟨["transaction_id", "customer_id", "amount", "transaction_date", "status"],
   [[("transaction_id", Value.str "T1"), ("customer_id", Value.str "C1"),
     ("amount", Value.num 10), ("transaction_date", Value.date 100),
     ("status", Value.str "completed")],
    [("transaction_id", Value.str "T2"), ("customer_id", Value.str "C2"),
     ("amount", Value.num 0), ("transaction_date", Value.date 100),
     ("status", Value.str "completed")]]⟩

/-- Witness for C7 at the concrete two-row dataset. -/
theorem validation_metrics_consistent_witness :
    (validationExecute parseDateNone 200 df2W).validRows +
        (validationExecute parseDateNone 200 df2W).invalidRows =
      (validationExecute parseDateNone 200 df2W).totalRows ∧
    (validationExecute parseDateNone 200 df2W).validationErrors.length ≤ 100 :=
  ⟨(validation_metrics_consistent parseDateNone 200 df2W (by decide)).1,
   (validation_metrics_consistent parseDateNone 200 df2W (by decide)).2.2.2.2.1⟩

theorem roundHalfEven_eq_or (q : ℚ) :
    roundHalfEven q = ⌊q⌋ ∨
      (roundHalfEven q = ⌊q⌋ + 1 ∧ 1/2 ≤ q - (⌊q⌋ : ℚ)) := by
  unfold roundHalfEven
  dsimp only
  split_ifs with h1 h2 h3
  · left; rfl
  · right; exact ⟨rfl, le_of_lt h2⟩
  · left; rfl
  · right; exact ⟨rfl, le_of_not_lt h1⟩

theorem roundHalfEven_nonneg {q : ℚ} (h : 0 ≤ q) : 0 ≤ roundHalfEven q := by
  have hf : (0 : ℤ) ≤ ⌊q⌋ := Int.le_floor.mpr (by exact_mod_cast h)
  rcases roundHalfEven_eq_or q with h1 | ⟨h1, _⟩ <;> omega

theorem roundHalfEven_le {q : ℚ} {B : ℤ} (h : q ≤ (B : ℚ)) :
    roundHalfEven q ≤ B := by
  have hf : ⌊q⌋ ≤ B := by
    have h2 := Int.floor_le_floor h
    simpa using h2
  rcases roundHalfEven_eq_or q with h1 | ⟨h1, h2⟩
  · omega
  · by_contra hc
    have hfB : ⌊q⌋ = B := by omega
    rw [hfB] at h2
    linarith

theorem round2_nonneg {q : ℚ} (h : 0 ≤ q) : 0 ≤ round2 q := by
  unfold round2
  have h1 : (0 : ℤ) ≤ roundHalfEven (q * 100) :=
    roundHalfEven_nonneg (by linarith)
  have h2 : (0 : ℚ) ≤ ((roundHalfEven (q * 100) : ℤ) : ℚ) := by
    exact_mod_cast h1
  linarith

theorem round2_le_100 {q : ℚ} (h : q ≤ 100) : round2 q ≤ 100 := by
  unfold round2
  have h1 : q * 100 ≤ ((10000 : ℤ) : ℚ) := by push_cast; linarith
  have h2 := roundHalfEven_le h1
  have h3 : ((roundHalfEven (q * 100) : ℤ) : ℚ) ≤ 10000 := by exact_mod_cast h2
  linarith

/-- C6: the review quality score is the 2-decimal rounding of
max(0, validation score − anomaly penalty), both percentages of the row
count, and always lies in [0, 100] — in particular also when the anomaly
count exceeds the row count so that the penalty exceeds the score.  The
validRows ≤ rowCount premise is exactly what the validation stage
guarantees (last conjunct). -/
theorem quality_score_bounds (df : DataFrame) (vr : ValidationResult)
    (cr : CleanResult) (ar : AnomalyResult)
    (h : vr.validRows ≤ df.rows.length) :
    (computeReviewMetrics df vr cr ar).qualityScore =
      round2 (max 0
        ((if 0 < df.rows.length then
            (vr.validRows : ℚ) / (df.rows.length : ℚ) * 100
          else 0) -
         (if 0 < df.rows.length then
            (ar.anomalies.length : ℚ) / (df.rows.length : ℚ) * 100
          else 0))) ∧
    0 ≤ (computeReviewMetrics df vr cr ar).qualityScore ∧
    (computeReviewMetrics df vr cr ar).qualityScore ≤ 100 ∧
    (∀ parseDate : String → Option ℚ, ∀ now : ℚ, ∀ d : DataFrame,
      (validationExecute parseDate now d).validRows ≤ d.rows.length) := by
  have hvs : (if 0 < df.rows.length then
      (vr.validRows : ℚ) / (df.rows.length : ℚ) * 100 else 0) ≤ 100 := by
    by_cases ht : 0 < df.rows.length
    · have htq : (0 : ℚ) < (df.rows.length : ℚ) := by exact_mod_cast ht
      have hd : (vr.validRows : ℚ) / (df.rows.length : ℚ) ≤ 1 := by
        rw [div_le_one htq]
        exact_mod_cast h
      simp only [ht, if_pos]
      linarith
    · simp [ht]
  have hap : (0 : ℚ) ≤ (if 0 < df.rows.length then
      (ar.anomalies.length : ℚ) / (df.rows.length : ℚ) * 100 else 0) := by
    by_cases ht : 0 < df.rows.length
    · have htq : (0 : ℚ) < (df.rows.length : ℚ) := by exact_mod_cast ht
      simp only [ht, if_pos]
      positivity
    · simp [ht]
  refine ⟨by simp [computeReviewMetrics], ?_, ?_, ?_⟩
  · have : (0 : ℚ) ≤ max 0
        ((if 0 < df.rows.length then
            (vr.validRows : ℚ) / (df.rows.length : ℚ) * 100 else 0) -
         (if 0 < df.rows.length then
            (ar.anomalies.length : ℚ) / (df.rows.length : ℚ) * 100 else 0)) :=
      le_max_left 0 _
    simpa [computeReviewMetrics] using round2_nonneg this
  · have hmax : max 0
        ((if 0 < df.rows.length then
            (vr.validRows : ℚ) / (df.rows.length : ℚ) * 100 else 0) -
         (if 0 < df.rows.length then
            (ar.anomalies.length : ℚ) / (df.rows.length : ℚ) * 100 else 0)) ≤
        100 := by
      apply max_le (by norm_num)
      linarith
    simpa [computeReviewMetrics] using round2_le_100 hmax
  · intro parseDate now d
    unfold validationExecute
    by_cases hE : (checkRequiredColumns d).isEmpty
    · simp only [hE, if_pos]
      exact Nat.sub_le _ _
    · simp [hE]

/-- Dummy anomaly record used by the C6 witness. -/
def anomW : Anomaly :=
  ⟨0, none, "suspicious_amount", "low", 0.7, "rule-based", "amount", []⟩

/-- Concrete stage results for the C6 witness: one row, three anomalies, so
the anomaly penalty exceeds the validation score. -/
def vrW : ValidationResult := ⟨true, none, dfW, 1, 1, 0, 100, 0, [], []⟩

/-- Concrete cleaning result for the C6 witness. -/
def crW : CleanResult := ⟨true, none, dfW, 1, 0, 0, 0, []⟩

/-- Concrete anomaly result with more anomalies than rows. -/
def arW : AnomalyResult :=
  ⟨true, none, dfW, 1, 3, 300, 3, 0, [anomW, anomW, anomW]⟩

/-- Witness for C6: the score stays in [0, 100] even with 3 anomalies on 1
row. -/
theorem quality_score_bounds_witness :
    0 ≤ (computeReviewMetrics dfW vrW crW arW).qualityScore ∧
      (computeReviewMetrics dfW vrW crW arW).qualityScore ≤ 100 :=
  ⟨(quality_score_bounds dfW vrW crW arW (by decide)).2.1,
   (quality_score_bounds dfW vrW crW arW (by decide)).2.2.1⟩

/-! Claim-side formulation of the rule-based detection pass, written from
the specification's wording one rule per definition, to be compared with the
source-side ruleAnomaliesRow. -/

/-- Spec rule 1: negative balance co-occurring with status completed
(high, 0.95). -/
def claimRule1 (idx : ℕ) (r : Row) : List Anomaly :=
  match numCellD r "balance" with
  | some b =>
    if b < 0 ∧ statusEq r "completed" then
      [⟨idx, rowCell r "transaction_id", "negative_balance", "high", 0.95,
        "rule-based", "balance", []⟩]
    else []
  | none => []

/-- Spec rule 2: amount above 1,000,000 (medium, 0.80) or amount zero
(low, 0.70). -/
def claimRule2 (idx : ℕ) (r : Row) : List Anomaly :=
  match numCellD r "amount" with
  | some a =>
    if 1000000 < a then
      [⟨idx, rowCell r "transaction_id", "suspicious_amount", "medium", 0.80,
        "rule-based", "amount", []⟩]
    else if a = 0 then
      [⟨idx, rowCell r "transaction_id", "suspicious_amount", "low", 0.70,
        "rule-based", "amount", []⟩]
    else []
  | none => []

/-- Spec rule 3 exactly as the claim words it: status failed together with a
NONZERO amount and a present balance differing from the amount
(high, 0.90). -/
def claimRule3Nonzero (idx : ℕ) (r : Row) : List Anomaly :=
  match numCellD r "amount", numCellD r "balance" with
  | some a, some b =>
    if statusEq r "failed" ∧ a ≠ 0 ∧ notNaCell r "balance" ∧ b ≠ a then
      [⟨idx, rowCell r "transaction_id", "status_mismatch", "high", 0.90,
        "rule-based", "status", []⟩]
    else []
  | _, _ => []

/-- Amended rule 3: as claimRule3Nonzero but requiring a strictly POSITIVE
amount, which is what the source condition float(amount) > 0 checks. -/
def claimRule3Pos (idx : ℕ) (r : Row) : List Anomaly :=
  match numCellD r "amount", numCellD r "balance" with
  | some a, some b =>
    if statusEq r "failed" ∧ 0 < a ∧ notNaCell r "balance" ∧ b ≠ a then
      [⟨idx, rowCell r "transaction_id", "status_mismatch", "high", 0.90,
        "rule-based", "status", []⟩]
    else []
  | _, _ => []

/-- Spec rule 4: rows flagged is_duplicate (medium, 1.0). -/
def claimRule4 (idx : ℕ) (r : Row) : List Anomaly :=
  match rowCell r "is_duplicate" with
  | some v =>
    if isTruthy v then
      [⟨idx, rowCell r "transaction_id", "duplicate_transaction", "medium", 1,
        "rule-based", "transaction_id", []⟩]
    else []
  | none => []

/-- Spec rule 5: any of the four required fields null (critical, 1.0,
listing all missing fields). -/
def claimRule5 (idx : ℕ) (r : Row) : List Anomaly :=
  let missing := ruleRequiredFields.filter (fun f => cellIsNa r f)
  if !missing.isEmpty then
    [⟨idx, rowCell r "transaction_id", "missing_required_field", "critical", 1,
      "rule-based", "multiple", missing⟩]
  else []

/-- The claim's rule set, rule 3 with the nonzero-amount condition as
stated. -/
def claimRulesRow (idx : ℕ) (r : Row) : List Anomaly :=
  claimRule1 idx r ++ claimRule2 idx r ++ claimRule3Nonzero idx r ++
    claimRule4 idx r ++ claimRule5 idx r

/-- The amended rule set: rule 3 requires a strictly positive amount. -/
def claimRulesRowAmended (idx : ℕ) (r : Row) : List Anomaly :=
  claimRule1 idx r ++ claimRule2 idx r ++ claimRule3Pos idx r ++
    claimRule4 idx r ++ claimRule5 idx r

theorem claimRule1_eq (idx : ℕ) (r : Row) :
    (if notNaCell r "balance" &&
        (match numCellD r "balance" with
         | some b => decide (b < 0)
         | none => false) &&
        statusEq r "completed" then
      [(⟨idx, rowCell r "transaction_id", "negative_balance", "high", 0.95,
        "rule-based", "balance", []⟩ : Anomaly)]
     else []) = claimRule1 idx r := by
  unfold claimRule1
  cases hv : rowCell r "balance" with
  | none =>
    simp only [numCellD, notNaCell, cellIsNa, hv]
    by_cases hs : statusEq r "completed" <;> simp [hs]
  | some v =>
    cases v with
    | null => simp [numCellD, notNaCell, cellIsNa, hv, Value.isNull]
    | num q =>
      simp only [numCellD, notNaCell, cellIsNa, hv, Value.isNull]
      by_cases hb : q < 0 <;> by_cases hs : statusEq r "completed" <;>
        simp [hb, hs]
    | str s =>
      simp only [numCellD, notNaCell, cellIsNa, hv, Value.isNull]
      cases hp : parseFloatQ s with
      | none => simp
      | some b =>
        by_cases hb : b < 0 <;> by_cases hs : statusEq r "completed" <;>
          simp [hb, hs]
    | boolean b =>
      simp only [numCellD, notNaCell, cellIsNa, hv, Value.isNull]
      cases b <;>
        simp [show ¬((1 : ℚ) < 0) by norm_num, show ¬((0 : ℚ) < 0) by norm_num]
    | date t => simp [numCellD, notNaCell, cellIsNa, hv, Value.isNull]

theorem claimRule3_eq (idx : ℕ) (r : Row) :
    (if statusEq r "failed" &&
        (match numCellD r "amount" with
         | some a => decide (0 < a)
         | none => false) &&
        notNaCell r "balance" &&
        (match numCellD r "balance", numCellD r "amount" with
         | some b, some a => decide (b ≠ a)
         | _, _ => false) then
      [(⟨idx, rowCell r "transaction_id", "status_mismatch", "high", 0.90,
        "rule-based", "status", []⟩ : Anomaly)]
     else []) = claimRule3Pos idx r := by
  unfold claimRule3Pos
  cases ha : numCellD r "amount" with
  | none => simp [ha]
  | some a =>
    cases hb : numCellD r "balance" with
    | none => simp [ha, hb]
    | some b =>
      by_cases hs : statusEq r "failed" <;>
        by_cases hpa : 0 < a <;>
          by_cases hnb : notNaCell r "balance" <;>
            by_cases hba : b ≠ a <;>
              simp [ha, hb, hs, hpa, hnb, hba]

/-- The non-raising rule semantics coincides with the amended claim rule
set on every row; the faithful raising semantics refines this on its ok
runs (next theorems). -/
theorem ruleRow_eq_claimAmended (idx : ℕ) (r : Row) :
    ruleAnomaliesRow idx r = claimRulesRowAmended idx r := by
  unfold ruleAnomaliesRow claimRulesRowAmended
  rw [claimRule1_eq, claimRule3_eq]
  rfl

theorem floatCellE_ok_numCellD (r : Row) (c : String) (o : Option ℚ)
    (h : floatCellE r c = Except.ok o) : numCellD r c = o := by
  unfold floatCellE at h
  unfold numCellD
  cases hv : rowCell r c with
  | none =>
    rw [hv] at h
    simpa using h
  | some v =>
    rw [hv] at h
    cases v with
    | null => simpa using h
    | num q => simpa using h
    | boolean b => simpa using h
    | date t => simp at h
    | str s =>
      cases hp : parseFloatQ s with
      | some q => simpa [hp] using h
      | none => simp [hp] at h

theorem claimRule1_na (idx : ℕ) (r : Row)
    (h : ¬notNaCell r "balance" = true) : claimRule1 idx r = [] := by
  have h2 : cellIsNa r "balance" = true := by
    unfold notNaCell at h
    simpa using h
  unfold claimRule1
  unfold cellIsNa at h2
  cases hv : rowCell r "balance" with
  | none => simp [numCellD, hv, lt_irrefl]
  | some v =>
    rw [hv] at h2
    cases v <;> simp_all [numCellD, Value.isNull]

theorem ruleAnomaliesRowE_ok_claim (idx : ℕ) (r : Row) (l : List Anomaly)
    (h : ruleAnomaliesRowE idx r = Except.ok l) :
    l = claimRulesRowAmended idx r := by
  unfold ruleAnomaliesRowE at h
  dsimp only at h
  by_cases hnb : notNaCell r "balance"
  · rw [if_pos hnb] at h
    cases hB : floatCellE r "balance" with
    | error e => rw [hB] at h; simp at h
    | ok bq =>
      rw [hB] at h
      dsimp only at h
      cases hA : floatCellE r "amount" with
      | error e => rw [hA] at h; simp at h
      | ok aq =>
        rw [hA] at h
        dsimp only at h
        have hnA : numCellD r "amount" = aq :=
          floatCellE_ok_numCellD r "amount" aq hA
        have hnB : numCellD r "balance" = bq :=
          floatCellE_ok_numCellD r "balance" bq hB
        by_cases hsf : statusEq r "failed"
        · rw [if_pos hsf] at h
          cases aq with
          | none =>
            dsimp only at h
            simp only [Except.ok.injEq] at h
            subst h
            unfold claimRulesRowAmended claimRule1 claimRule2 claimRule3Pos
              claimRule4 claimRule5
            rw [hnA, hnB]
          | some a =>
            dsimp only at h
            by_cases hpa : 0 < a ∧ notNaCell r "balance"
            · rw [if_pos hpa] at h
              dsimp only at h
              simp only [Except.ok.injEq] at h
              subst h
              unfold claimRulesRowAmended claimRule1 claimRule2 claimRule3Pos
                claimRule4 claimRule5
              rw [hnA, hnB]
              cases bq with
              | none => simp
              | some b =>
                by_cases hba : b = a
                · simp [hba]
                · simp [hba, hsf, hpa.1, hpa.2]
            · rw [if_neg hpa] at h
              dsimp only at h
              simp only [Except.ok.injEq] at h
              subst h
              unfold claimRulesRowAmended claimRule1 claimRule2 claimRule3Pos
                claimRule4 claimRule5
              rw [hnA, hnB]
              cases bq with
              | none => simp
              | some b =>
                have hno : ¬(statusEq r "failed" ∧ 0 < a ∧
                    notNaCell r "balance" ∧ b ≠ a) := fun hc =>
                  hpa ⟨hc.2.1, hc.2.2.1⟩
                simp [hno]
        · rw [if_neg hsf] at h
          dsimp only at h
          simp only [Except.ok.injEq] at h
          subst h
          unfold claimRulesRowAmended claimRule1 claimRule2 claimRule3Pos
            claimRule4 claimRule5
          rw [hnA, hnB]
          cases aq with
          | none => simp
          | some a =>
            cases bq with
            | none => simp
            | some b => simp [hsf]
  · rw [if_neg hnb] at h
    dsimp only at h
    cases hA : floatCellE r "amount" with
    | error e => rw [hA] at h; simp at h
    | ok aq =>
      rw [hA] at h
      dsimp only at h
      have hnA : numCellD r "amount" = aq :=
        floatCellE_ok_numCellD r "amount" aq hA
      have hrule3 : ∀ a : ℚ, aq = some a →
          claimRule3Pos idx r = [] := by
        intro a ha
        unfold claimRule3Pos
        rw [hnA, ha]
        cases hb2 : numCellD r "balance" with
        | none => simp
        | some b => simp [hnb]
      have hrule3n : aq = none → claimRule3Pos idx r = [] := by
        intro ha
        unfold claimRule3Pos
        rw [hnA, ha]
      by_cases hsf : statusEq r "failed"
      · rw [if_pos hsf] at h
        cases aq with
        | none =>
          dsimp only at h
          simp only [Except.ok.injEq] at h
          subst h
          unfold claimRulesRowAmended
          rw [claimRule1_na idx r hnb, hrule3n rfl]
          unfold claimRule2 claimRule4 claimRule5
          rw [hnA]
        | some a =>
          dsimp only at h
          have hcn : ¬(0 < a ∧ notNaCell r "balance") := fun hc => hnb hc.2
          rw [if_neg hcn] at h
          dsimp only at h
          simp only [Except.ok.injEq] at h
          subst h
          unfold claimRulesRowAmended
          rw [claimRule1_na idx r hnb, hrule3 a rfl]
          unfold claimRule2 claimRule4 claimRule5
          rw [hnA]
      · rw [if_neg hsf] at h
        dsimp only at h
        simp only [Except.ok.injEq] at h
        subst h
        unfold claimRulesRowAmended
        rw [claimRule1_na idx r hnb]
        cases aq with
        | none =>
          rw [hrule3n rfl]
          unfold claimRule2 claimRule4 claimRule5
          rw [hnA]
        | some a =>
          rw [hrule3 a rfl]
          unfold claimRule2 claimRule4 claimRule5
          rw [hnA]

theorem ruleRowsE_ok : ∀ (l : List (ℕ × Row)) (ll : List Anomaly),
    ruleRowsE l = Except.ok ll →
    ll = (l.map (fun p => claimRulesRowAmended p.1 p.2)).flatten := by
  intro l
  induction l with
  | nil =>
    intro ll h
    simp [ruleRowsE] at h
    simp [← h]
  | cons p rest ih =>
    intro ll h
    unfold ruleRowsE at h
    cases h1 : ruleAnomaliesRowE p.1 p.2 with
    | error e => rw [h1] at h; simp at h
    | ok a =>
      rw [h1] at h
      cases h2 : ruleRowsE rest with
      | error e => rw [h2] at h; simp at h
      | ok res =>
        rw [h2] at h
        simp only [Except.ok.injEq] at h
        subst h
        rw [List.map_cons, List.flatten_cons,
          ruleAnomaliesRowE_ok_claim p.1 p.2 a h1, ih res h2]

/-- Concrete raising row: amount is the unparsable string "abc" and
customer_id is null.  The source's float() raises at rule 2, the row loop
aborts, and nothing is emitted — although the missing-field rule read alone
would have produced an entry. -/
def rowBad : Row :=
  [("transaction_id", Value.str "T1"), ("customer_id", Value.null),
   ("amount", Value.str "abc"), ("status", Value.str "completed")]

/-- Concrete row refuting the claim as stated: status failed, amount -5
(nonzero but not positive), balance 3 differing from the amount. -/
def rowCx : Row :=
  [("transaction_id", Value.str "T1"), ("customer_id", Value.str "C1"),
   ("amount", Value.num (-5)), ("status", Value.str "failed"),
   ("balance", Value.num 3)]

/-- C4 amended theorem: on every row where the rule pass completes (the
amount cell and any non-null balance cell convert under float(); otherwise
the row loop raises, the stage emits nothing and aborts), it emits exactly
the five claim rules' entries with the stated types, severities and
confidences, with the status-mismatch rule firing only for a strictly
positive (not merely nonzero) amount; the full scan, when it completes, is
the row-wise concatenation of that rule set.  The last two conjuncts pin the
raise path at a concrete row: the scan aborts although the missing-field
rule alone would have emitted an entry there. -/
theorem rule_detection_amended :
    (∀ idx : ℕ, ∀ r : Row, ∀ l : List Anomaly,
      ruleAnomaliesRowE idx r = Except.ok l →
      l = claimRulesRowAmended idx r) ∧
    (∀ df : DataFrame, ∀ ll : List Anomaly,
      ruleBasedDetectionE df = Except.ok ll →
      ll = (df.rows.enum.map (fun p => claimRulesRowAmended p.1 p.2)).flatten) ∧
    ruleAnomaliesRowE 0 rowBad =
      Except.error "could not convert string to float: abc" ∧
    claimRule5 0 rowBad =
      [⟨0, some (Value.str "T1"), "missing_required_field", "critical", 1,
        "rule-based", "multiple", ["customer_id"]⟩] :=
  ⟨ruleAnomaliesRowE_ok_claim, fun df ll h => ruleRowsE_ok df.rows.enum ll h,
   rfl, rfl⟩

/-- Witness for C4's amended theorem at the concrete non-raising row. -/
theorem rule_detection_amended_witness :
    ruleAnomaliesRowE 0 rowCx = Except.ok [] ∧
    ([] : List Anomaly) = claimRulesRowAmended 0 rowCx := by
  have h : ruleAnomaliesRowE 0 rowCx = Except.ok [] := by
    simp +decide [ruleAnomaliesRowE, rowCx, floatCellE, notNaCell, cellIsNa,
      rowCell, statusEq, isTruthy, ruleRequiredFields, Value.isNull, lowerStr,
      lowerChar, lowerPairs, List.lookup]
  exact ⟨h, rule_detection_amended.1 0 rowCx [] h⟩

/-- C4 counterexample: on rowCx the source emits no anomaly at all, while
the claim's rule set (nonzero amount) emits a status_mismatch entry. -/
theorem rule_detection_counterexample :
    ruleAnomaliesRow 0 rowCx = [] ∧
    claimRulesRow 0 rowCx =
      [⟨0, some (Value.str "T1"), "status_mismatch", "high", 0.90,
        "rule-based", "status", []⟩] ∧
    ruleAnomaliesRow 0 rowCx ≠ claimRulesRow 0 rowCx := by
  have h1 : ruleAnomaliesRow 0 rowCx = [] := by
    simp +decide [ruleAnomaliesRow, rowCx, numCellD, notNaCell, cellIsNa,
      rowCell, statusEq, isTruthy, ruleRequiredFields, Value.isNull, lowerStr,
      lowerChar, lowerPairs, List.lookup]
  have h2 : claimRulesRow 0 rowCx =
      [⟨0, some (Value.str "T1"), "status_mismatch", "high", 0.90,
        "rule-based", "status", []⟩] := by
    simp +decide [claimRulesRow, claimRule1, claimRule2, claimRule3Nonzero,
      claimRule4, claimRule5, rowCx, numCellD, notNaCell, cellIsNa, rowCell,
      statusEq, isTruthy, ruleRequiredFields, Value.isNull, lowerStr,
      lowerChar, lowerPairs, List.lookup]
  exact ⟨h1, h2, by rw [h1, h2]; simp⟩

/-- Default confidence threshold of AnomalyDetectorNode. -/
def defaultConfidenceThreshold : ℚ := 0.75

theorem foldl_parseLine_isAnomaly (lines : List String) (acc : LlmParsed)
    (hacc : acc.isAnomaly = false)
    (h : ∀ line ∈ lines, ¬startsWithS (stripStr line) "IS_ANOMALY:") :
    (lines.foldl parseLine acc).isAnomaly = false := by
  induction lines generalizing acc with
  | nil => exact hacc
  | cons l ls ih =>
    rw [List.foldl_cons]
    apply ih
    · have hl : startsWithS (stripStr l) "IS_ANOMALY:" = false := by
        have h2 := h l (by simp)
        simpa using h2
      unfold parseLine
      rw [if_neg (by simp [hl])]
      split_ifs
      · cases hp : parseFloatQ (stripStr (lastSegColon (stripStr l))) <;>
          simp [hp, hacc]
      · simpa using hacc
      · simpa using hacc
      · simpa using hacc
      · exact hacc
    · intro line hm
      exact h line (by simp [hm])

theorem llmResultAccepted_false (o : Option Anomaly) :
    llmResultAccepted o = false := by
  cases o <;> rfl

theorem filter_llmResultAccepted_nil (l : List (Option Anomaly)) :
    l.filter llmResultAccepted = [] := by
  induction l with
  | nil => rfl
  | cons o l ih => simp [List.filter, llmResultAccepted_false, ih]

/-- C5: a model-derived anomaly is produced by _llm_detection exactly when
the parsed response reports an anomaly with confidence at or above the
threshold (default 0.75); a failed completion call or a response with no
IS_ANOMALY line yields no anomaly for the row; the detection stage always
returns success.  The last conjunct records that the node's acceptance guard
(result.get "is_anomaly" on a record without that key) then discards every
model-derived record before it reaches the stage's anomaly list, so the
"only when" direction holds for the merged list a fortiori. -/
theorem llm_detection_gating :
    defaultConfidenceThreshold = 0.75 ∧
    (∀ threshold : ℚ, ∀ idx : ℕ, ∀ txn : Option Value,
      ∀ gen : Except String String,
      (llmDetection threshold idx txn gen).isSome ↔
        ((detectAnomalyClient gen).isAnomaly ∧
          threshold ≤ (detectAnomalyClient gen).confidence)) ∧
    (∀ threshold : ℚ, ∀ idx : ℕ, ∀ txn : Option Value, ∀ msg : String,
      llmDetection threshold idx txn (Except.error msg) = none) ∧
    (∀ threshold : ℚ, ∀ idx : ℕ, ∀ txn : Option Value, ∀ text : String,
      (∀ l ∈ splitOnChar '\n' (stripStr text).data,
        ¬startsWithS (stripStr ⟨l⟩) "IS_ANOMALY:") →
      llmDetection threshold idx txn (Except.ok text) = none) ∧
    (∀ threshold : ℚ, ∀ sampleIdx : List ℕ, ∀ gen : ℕ → Except String String,
      ∀ df : DataFrame,
      (anomalyExecute threshold sampleIdx gen df).success = true) ∧
    (∀ l : List (Option Anomaly), l.filter llmResultAccepted = []) := by
  refine ⟨rfl, ?_, ?_, ?_, ?_, filter_llmResultAccepted_nil⟩
  · intro threshold idx txn gen
    by_cases h : (detectAnomalyClient gen).isAnomaly ∧
        threshold ≤ (detectAnomalyClient gen).confidence
    · simp [llmDetection, h]
    · simp only [llmDetection, if_neg h]
      simpa using h
  · intro threshold idx txn msg
    simp [llmDetection, detectAnomalyClient]
  · intro threshold idx txn text h
    have hp : (parseAnomalyResponse text).isAnomaly = false := by
      unfold parseAnomalyResponse
      apply foldl_parseLine_isAnomaly _ _ rfl
      intro line hm
      obtain ⟨l, hl, rfl⟩ := List.mem_map.mp hm
      exact h l hl
    simp [llmDetection, detectAnomalyClient, hp]
  · intro threshold sampleIdx gen df
    simp [anomalyExecute]

/-- Witness for C5: a failed call yields no anomaly, and the stage still
succeeds on the concrete dataset. -/
theorem llm_detection_gating_witness :
    llmDetection defaultConfidenceThreshold 0 none (Except.error "down") =
        none ∧
    (anomalyExecute defaultConfidenceThreshold [0]
        (fun _ => Except.error "down") dfW).success = true :=
  ⟨llm_detection_gating.2.2.1 defaultConfidenceThreshold 0 none "down",
   llm_detection_gating.2.2.2.2.1 defaultConfidenceThreshold [0]
     (fun _ => Except.error "down") dfW⟩

example :
    llmDetection 0.75 5 none
        (Except.ok "IS_ANOMALY: YES\nCONFIDENCE: 0.9") =
      some ⟨5, none, "other", "medium", 0.9, "watsonx-llm", "", []⟩ := by
  simp +decide [llmDetection, detectAnomalyClient, parseAnomalyResponse,
    parseLine, stripStr, trimWs, lastSegColon, containsSub, upperStr,
    upperChar, lowerPairs, replaceSpaces, lowerStr, lowerChar, afterFirstColon,
    splitOnChar, startsWithS, parseFloatQ, parseMantissa, parseExpVal,
    splitExp, takeSign, digitsVal]
  norm_num

/-- C9 amended theorem: the orchestrator always returns a terminal status
(completed or failed); when a stage reports failure, the single error record
names that stage and later stages never run while earlier completed stage
entries remain attached; when a stage throws, the orchestrator's boundary
handler records stage "pipeline" (not the throwing stage's name); when all
four stages succeed the run completes with review and publishing attached
and an empty errors list. -/
theorem orchestrator_terminal_amended (duration : ℚ) (ing : StageCall IngResult)
    (val : DataFrame → StageCall ValidationResult)
    (clean : DataFrame → StageCall CleanResult)
    (anom : DataFrame → StageCall AnomalyResult) :
    ((executeFullPipeline duration ing val clean anom).status = "completed" ∨
      (executeFullPipeline duration ing val clean anom).status = "failed") ∧
    (∀ m : String, ing = StageCall.threw m →
      (executeFullPipeline duration ing val clean anom) =
        ⟨"failed", [], [⟨"pipeline", some m⟩], none, none, none⟩) ∧
    (∀ ir : IngResult, ing = StageCall.retOk ir → ir.success = false →
      (executeFullPipeline duration ing val clean anom) =
        ⟨"failed", [], [⟨"ingestion", ir.error⟩], none, none, none⟩) ∧
    (∀ ir : IngResult, ∀ m : String, ing = StageCall.retOk ir →
      ir.success = true → val ir.dataframe = StageCall.threw m →
      (executeFullPipeline duration ing val clean anom) =
        ⟨"failed", [⟨"ingestion", "completed"⟩], [⟨"pipeline", some m⟩],
         none, none, none⟩) ∧
    (∀ ir : IngResult, ∀ vr : ValidationResult, ing = StageCall.retOk ir →
      ir.success = true → val ir.dataframe = StageCall.retOk vr →
      vr.success = false →
      (executeFullPipeline duration ing val clean anom) =
        ⟨"failed", [⟨"ingestion", "completed"⟩], [⟨"validation", vr.error⟩],
         none, none, none⟩) ∧
    (∀ ir : IngResult, ∀ vr : ValidationResult, ∀ m : String,
      ing = StageCall.retOk ir → ir.success = true →
      val ir.dataframe = StageCall.retOk vr → vr.success = true →
      clean vr.dataframe = StageCall.threw m →
      (executeFullPipeline duration ing val clean anom) =
        ⟨"failed", [⟨"ingestion", "completed"⟩, ⟨"validation", "completed"⟩],
         [⟨"pipeline", some m⟩], none, none, none⟩) ∧
    (∀ ir : IngResult, ∀ vr : ValidationResult, ∀ cr : CleanResult,
      ∀ m : String, ing = StageCall.retOk ir → ir.success = true →
      val ir.dataframe = StageCall.retOk vr → vr.success = true →
      clean vr.dataframe = StageCall.retOk cr → cr.success = true →
      anom cr.dataframe = StageCall.threw m →
      (executeFullPipeline duration ing val clean anom) =
        ⟨"failed", [⟨"ingestion", "completed"⟩, ⟨"validation", "completed"⟩,
          ⟨"cleaning", "completed"⟩], [⟨"pipeline", some m⟩],
         none, none, none⟩) ∧
    (∀ ir : IngResult, ∀ vr : ValidationResult, ∀ cr : CleanResult,
      ∀ ar : AnomalyResult, ing = StageCall.retOk ir → ir.success = true →
      val ir.dataframe = StageCall.retOk vr → vr.success = true →
      clean vr.dataframe = StageCall.retOk cr → cr.success = true →
      anom cr.dataframe = StageCall.retOk ar → ar.success = true →
      (executeFullPipeline duration ing val clean anom).status = "completed" ∧
      (executeFullPipeline duration ing val clean anom).errors = [] ∧
      (executeFullPipeline duration ing val clean anom).stages =
        [⟨"ingestion", "completed"⟩, ⟨"validation", "completed"⟩,
         ⟨"cleaning", "completed"⟩, ⟨"anomaly_detection", "completed"⟩,
         ⟨"review", "completed"⟩, ⟨"publishing", "completed"⟩]) := by
  refine ⟨?_, ?_, ?_, ?_, ?_, ?_, ?_, ?_⟩
  · cases ing with
    | threw m => simp [executeFullPipeline]
    | retOk ir =>
      by_cases hs : ir.success
      · cases hv : val ir.dataframe with
        | threw m => simp [executeFullPipeline, hs, hv]
        | retOk vr =>
          by_cases hvs : vr.success
          · cases hc : clean vr.dataframe with
            | threw m => simp [executeFullPipeline, hs, hv, hvs, hc]
            | retOk cr =>
              by_cases hcs : cr.success
              · cases ha : anom cr.dataframe with
                | threw m => simp [executeFullPipeline, hs, hv, hvs, hc, hcs, ha]
                | retOk ar =>
                  by_cases has : ar.success <;>
                    simp [executeFullPipeline, hs, hv, hvs, hc, hcs, ha, has]
              · simp [executeFullPipeline, hs, hv, hvs, hc, hcs]
          · simp [executeFullPipeline, hs, hv, hvs]
      · simp [executeFullPipeline, hs]
  · intro m hm
    simp [executeFullPipeline, hm]
  · intro ir hm hs
    simp [executeFullPipeline, hm, hs]
  · intro ir m hm hs hv
    simp [executeFullPipeline, hm, hs, hv]
  · intro ir vr hm hs hv hvs
    simp [executeFullPipeline, hm, hs, hv, hvs]
  · intro ir vr m hm hs hv hvs hc
    simp [executeFullPipeline, hm, hs, hv, hvs, hc]
  · intro ir vr cr m hm hs hv hvs hc hcs ha
    simp [executeFullPipeline, hm, hs, hv, hvs, hc, hcs, ha]
  · intro ir vr cr ar hm hs hv hvs hc hcs ha has
    refine ⟨?_, ?_, ?_⟩ <;>
      simp [executeFullPipeline, hm, hs, hv, hvs, hc, hcs, ha, has]

/-- C9 counterexample: with cleaning throwing "boom", the run fails but the
sole error record names stage "pipeline", not the failing stage
"cleaning" — the claim's "record naming the failing stage" is false for
thrown faults (completed earlier stages do remain attached). -/
theorem orchestrator_exception_counterexample :
    (executeFullPipeline 0 (StageCall.retOk ⟨true, none, dfW, 1⟩)
        (fun _ => StageCall.retOk vrW) (fun _ => StageCall.threw "boom")
        (fun _ => StageCall.threw "unused")).status = "failed" ∧
    (executeFullPipeline 0 (StageCall.retOk ⟨true, none, dfW, 1⟩)
        (fun _ => StageCall.retOk vrW) (fun _ => StageCall.threw "boom")
        (fun _ => StageCall.threw "unused")).errors =
      [⟨"pipeline", some "boom"⟩] ∧
    (∀ e ∈ (executeFullPipeline 0 (StageCall.retOk ⟨true, none, dfW, 1⟩)
        (fun _ => StageCall.retOk vrW) (fun _ => StageCall.threw "boom")
        (fun _ => StageCall.threw "unused")).errors, e.stage ≠ "cleaning") ∧
    (executeFullPipeline 0 (StageCall.retOk ⟨true, none, dfW, 1⟩)
        (fun _ => StageCall.retOk vrW) (fun _ => StageCall.threw "boom")
        (fun _ => StageCall.threw "unused")).stages =
      [⟨"ingestion", "completed"⟩, ⟨"validation", "completed"⟩] := by
  refine ⟨?_, ?_, ?_, ?_⟩ <;> simp [executeFullPipeline, vrW]

/-- Witness for C9 at a concrete run whose validation stage reports
failure. -/
theorem orchestrator_terminal_amended_witness :
    (executeFullPipeline 0 (StageCall.retOk ⟨true, none, dfMissW, 1⟩)
        (fun _ => StageCall.retOk
          ⟨false, some "bad", dfMissW, 0, 0, 0, 0, 0, [], []⟩)
        (fun _ => StageCall.threw "unused")
        (fun _ => StageCall.threw "unused")) =
      ⟨"failed", [⟨"ingestion", "completed"⟩], [⟨"validation", some "bad"⟩],
       none, none, none⟩ :=
  (orchestrator_terminal_amended 0 (StageCall.retOk ⟨true, none, dfMissW, 1⟩)
      (fun _ => StageCall.retOk
        ⟨false, some "bad", dfMissW, 0, 0, 0, 0, 0, [], []⟩)
      (fun _ => StageCall.threw "unused")
      (fun _ => StageCall.threw "unused")).2.2.2.2.1
    ⟨true, none, dfMissW, 1⟩
    ⟨false, some "bad", dfMissW, 0, 0, 0, 0, 0, [], []⟩ rfl rfl rfl rfl

theorem runNodeOnHeap_frame (body : DataFrame → DataFrame) (h : Heap)
    (r i : ℕ) (hi : i < h.length) :
    hget (runNodeOnHeap body h r).1 i = hget h i ∧
      (runNodeOnHeap body h r).2 = h.length := by
  constructor
  · unfold runNodeOnHeap hget
    dsimp only
    rw [List.get?_eq_getElem?, List.get?_eq_getElem?]
    rw [List.getElem?_set_ne (by omega), List.getElem?_append]
    simp [hi]
  · rfl

/-- C10: each of the three nodes first copies its input frame and performs
all of its writes on the copy: running any node on a heap leaves every
pre-existing dataframe object — in particular the caller's — unchanged, the
node's result living at a freshly allocated address. -/
theorem nodes_preserve_caller_dataframe (parseDate : String → Option ℚ)
    (now threshold : ℚ) (sampleIdx : List ℕ)
    (gen : ℕ → Except String String) (h : Heap) (r i : ℕ)
    (hi : i < h.length) :
    hget (validationNodeHeap parseDate now h r).1 i = hget h i ∧
    (validationNodeHeap parseDate now h r).2 = h.length ∧
    hget (cleaningNodeHeap parseDate h r).1 i = hget h i ∧
    (cleaningNodeHeap parseDate h r).2 = h.length ∧
    hget (anomalyNodeHeap threshold sampleIdx gen h r).1 i = hget h i ∧
    (anomalyNodeHeap threshold sampleIdx gen h r).2 = h.length :=
  ⟨(runNodeOnHeap_frame _ h r i hi).1, (runNodeOnHeap_frame _ h r i hi).2,
   (runNodeOnHeap_frame _ h r i hi).1, (runNodeOnHeap_frame _ h r i hi).2,
   (runNodeOnHeap_frame _ h r i hi).1, (runNodeOnHeap_frame _ h r i hi).2⟩

/-- Witness for C10 on a one-object heap. -/
theorem nodes_preserve_caller_dataframe_witness :
    hget (validationNodeHeap parseDateNone 200 [dfW] 0).1 0 = hget [dfW] 0 ∧
      hget (cleaningNodeHeap parseDateNone [dfW] 0).1 0 = hget [dfW] 0 :=
  ⟨(nodes_preserve_caller_dataframe parseDateNone 200 0.75 []
      (fun _ => Except.error "down") [dfW] 0 0 (by decide)).1,
   (nodes_preserve_caller_dataframe parseDateNone 200 0.75 []
      (fun _ => Except.error "down") [dfW] 0 0 (by decide)).2.2.1⟩

/-! Idempotence of the canonicalization functions (column standardization,
amount, status, transaction type). -/

theorem lookup_mem_snd {α β : Type} [BEq α] (m : List (α × β)) (k : α)
    (v : β) (h : m.lookup k = some v) : v ∈ m.map Prod.snd := by
  induction m with
  | nil => cases h
  | cons p m ih =>
    cases kb : (k == p.1) with
    | true =>
      rw [List.lookup_cons] at h
      simp only [kb] at h
      cases h
      simp
    | false =>
      rw [List.lookup_cons] at h
      simp only [kb] at h
      simp [ih h]

theorem lowerChar_idem (c : Char) : lowerChar (lowerChar c) = lowerChar c := by
  cases h : lowerPairs.lookup c with
  | none =>
    have hc : lowerChar c = c := by simp [lowerChar, h]
    rw [hc, hc]
  | some v =>
    have hc : lowerChar c = v := by simp [lowerChar, h]
    have hv : v ∈ lowerPairs.map Prod.snd := lookup_mem_snd _ _ _ h
    have hfix : ∀ w ∈ lowerPairs.map Prod.snd, lowerChar w = w := by decide
    rw [hc]
    exact hfix v hv

theorem dropWhile_dropWhile {α : Type} (p : α → Bool) (l : List α) :
    (l.dropWhile p).dropWhile p = l.dropWhile p := by
  induction l with
  | nil => rfl
  | cons a l ih =>
    by_cases h : p a
    · simp [List.dropWhile_cons, h, ih]
    · simp [List.dropWhile_cons, h]

theorem dropWhile_head_false {α : Type} (p : α → Bool) (l : List α) (a : α)
    (h : (l.dropWhile p).head? = some a) : p a = false := by
  induction l with
  | nil => cases h
  | cons x l ih =>
    by_cases hx : p x
    · rw [List.dropWhile_cons_of_pos hx] at h
      exact ih h
    · rw [List.dropWhile_cons_of_neg hx] at h
      simp only [List.head?_cons, Option.some_inj] at h
      rw [← h]
      simpa using hx

theorem prefix_head_eq {α : Type} {l1 l2 : List α} (h : l1 <+: l2)
    (hne : l1 ≠ []) : l2.head? = l1.head? := by
  obtain ⟨t, rfl⟩ := h
  cases l1 with
  | nil => exact absurd rfl hne
  | cons a l => rfl

theorem trimWs_idem (l : List Char) : trimWs (trimWs l) = trimWs l := by
  unfold trimWs
  have h1 : ((l.dropWhile isWs).reverse.dropWhile isWs).reverse.dropWhile isWs =
      ((l.dropWhile isWs).reverse.dropWhile isWs).reverse := by
    cases hb : ((l.dropWhile isWs).reverse.dropWhile isWs).reverse with
    | nil => rfl
    | cons a bs =>
      have hpre : ((l.dropWhile isWs).reverse.dropWhile isWs).reverse <+:
          l.dropWhile isWs := by
        have hs : (l.dropWhile isWs).reverse.dropWhile isWs <:+
            (l.dropWhile isWs).reverse := List.dropWhile_suffix isWs
        have h2 := List.reverse_prefix.mpr hs
        simpa using h2
      have hhead : (l.dropWhile isWs).head? = some a := by
        rw [prefix_head_eq hpre (by simp [hb]), hb]
        rfl
      have ha : isWs a = false := dropWhile_head_false isWs l a hhead
      rw [List.dropWhile_cons_of_neg (by simp [ha])]
  rw [h1, List.reverse_reverse, dropWhile_dropWhile]

theorem mem_trimWs {c : Char} {l : List Char} (h : c ∈ trimWs l) : c ∈ l := by
  unfold trimWs at h
  have h1 := List.mem_reverse.mp h
  have h2 := (List.dropWhile_suffix isWs).subset h1
  have h3 := List.mem_reverse.mp h2
  exact (List.dropWhile_suffix isWs).subset h3

theorem map_lowerChar_fixed (l : List Char)
    (hl : ∀ c ∈ l, lowerChar c = c) : l.map lowerChar = l := by
  calc l.map lowerChar = l.map id := List.map_congr_left hl
    _ = l := List.map_id l

theorem stripLower_idem (s : String) :
    stripStr (lowerStr (stripStr (lowerStr s))) = stripStr (lowerStr s) := by
  unfold stripStr lowerStr
  congr 1
  have hfix : ∀ c ∈ trimWs (s.data.map lowerChar), lowerChar c = c := by
    intro c hc
    obtain ⟨x, hx, rfl⟩ := List.mem_map.mp (mem_trimWs hc)
    exact lowerChar_idem x
  calc trimWs ((String.mk (trimWs (s.data.map lowerChar))).data.map lowerChar)
      = trimWs (trimWs (s.data.map lowerChar)) := by
        rw [map_lowerChar_fixed _ hfix]
    _ = trimWs (s.data.map lowerChar) := trimWs_idem _

theorem colChar_idem (c : Char) : colChar (colChar c) = colChar c := by
  by_cases h : lowerChar c = ' ' ∨ lowerChar c = '-'
  · have hu : colChar c = '_' := by simp [colChar, h]
    rw [hu]
    decide
  · have hd : colChar c = lowerChar c := by simp [colChar, h]
    rw [hd]
    simp [colChar, lowerChar_idem c, h]

theorem colTransform_idem (s : String) :
    colTransform (colTransform s) = colTransform s := by
  unfold colTransform
  congr 1
  calc (String.mk (s.data.map colChar)).data.map colChar
      = (s.data.map colChar).map colChar := rfl
    _ = s.data.map (colChar ∘ colChar) := by rw [List.map_map]
    _ = s.data.map colChar :=
        List.map_congr_left (fun a _ => colChar_idem a)

theorem standardizeColumn_idem (s : String) :
    standardizeColumn (standardizeColumn s) = standardizeColumn s := by
  unfold standardizeColumn
  dsimp only
  cases h : columnMappings.lookup (colTransform s) with
  | none =>
    simp only [h, Option.getD_none]
    rw [colTransform_idem, h]
    rfl
  | some v =>
    simp only [h, Option.getD_some]
    have hv := lookup_mem_snd _ _ _ h
    have hfix : ∀ w ∈ columnMappings.map Prod.snd,
        (columnMappings.lookup (colTransform w)).getD (colTransform w) = w := by
      decide
    exact hfix v hv

theorem cleanStatusS_idem (s : String) :
    cleanStatusS (cleanStatusS s) = cleanStatusS s := by
  unfold cleanStatusS
  dsimp only
  cases h : statusMap.lookup (stripStr (lowerStr s)) with
  | none =>
    simp only [h, Option.getD_none]
    rw [stripLower_idem, h]
    rfl
  | some v =>
    simp only [h, Option.getD_some]
    have hv := lookup_mem_snd _ _ _ h
    have hfix : ∀ w ∈ statusMap.map Prod.snd,
        (statusMap.lookup (stripStr (lowerStr w))).getD
          (stripStr (lowerStr w)) = w := by decide
    exact hfix v hv

theorem cleanTypeS_idem (s : String) :
    cleanTypeS (cleanTypeS s) = cleanTypeS s := by
  unfold cleanTypeS
  dsimp only
  cases h : typeMap.lookup (stripStr (lowerStr s)) with
  | none =>
    simp only [h, Option.getD_none]
    rw [stripLower_idem, h]
    rfl
  | some v =>
    simp only [h, Option.getD_some]
    have hv := lookup_mem_snd _ _ _ h
    have hfix : ∀ w ∈ typeMap.map Prod.snd,
        (typeMap.lookup (stripStr (lowerStr w))).getD
          (stripStr (lowerStr w)) = w := by decide
    exact hfix v hv

theorem roundHalfEven_intCast (k : ℤ) : roundHalfEven (k : ℚ) = k := by
  unfold roundHalfEven
  dsimp only
  rw [Int.floor_intCast, if_pos (by norm_num)]

theorem round2_idem (q : ℚ) : round2 (round2 q) = round2 q := by
  unfold round2
  have h : ((roundHalfEven (q * 100) : ℤ) : ℚ) / 100 * 100 =
      ((roundHalfEven (q * 100) : ℤ) : ℚ) := by field_simp
  rw [h, roundHalfEven_intCast]

theorem cleanAmount_idem (v : Value) :
    cleanAmount (Value.num (cleanAmount v)) = cleanAmount v := by
  cases v with
  | null => simp [cleanAmount, round2_zero]
  | num q => simp [cleanAmount, round2_idem]
  | boolean b => cases b <;> simp [cleanAmount, round2_idem]
  | date t => simp [cleanAmount, round2_zero]
  | str s =>
    simp only [cleanAmount]
    cases hp : parseFloatQ (amountPreprocess s) with
    | some q => simp [round2_idem]
    | none => simp [round2_zero]

/-- C8: the column-standardization map and the amount, status and
transaction-type canonicalization functions are idempotent: a second
application returns the first application's result unchanged, and the
"unknown" default written for null statuses and types is itself a fixed
point. -/
theorem canonicalization_idempotent :
    (∀ s : String, standardizeColumn (standardizeColumn s) =
      standardizeColumn s) ∧
    (∀ v : Value, cleanAmount (Value.num (cleanAmount v)) = cleanAmount v) ∧
    (∀ s : String, cleanStatusS (cleanStatusS s) = cleanStatusS s) ∧
    (∀ s : String, cleanTypeS (cleanTypeS s) = cleanTypeS s) ∧
    cleanStatusS "unknown" = "unknown" ∧ cleanTypeS "unknown" = "unknown" :=
  ⟨standardizeColumn_idem, cleanAmount_idem, cleanStatusS_idem,
   cleanTypeS_idem, by decide, by decide⟩

example :
    dupFlags [[("transaction_id", Value.str "T1")],
      [("transaction_id", Value.str "T1")],
      [("transaction_id", Value.str "T2")]] = [false, true, false] := by
  decide

example : checkRequiredColumns dfMissW = ["customer_id"] := by decide

example : validateStatus (some (Value.str "Completed")) = true := by decide

example : validateAmount (some (Value.str "abc")) =
    "Amount is not a valid number" := by decide
